import Mathlib

/-!
Shallow embedding of the invoice/GRN reconciliation engine of this repository:
the rule-based header reconciliation processor (`invoice_recon.py`), the
item-wise reconciliation processor (`item_recon.py`), the reconciliation
result models with their save-time flag derivation
(`models/reconciliation.py`), the manual-match endpoint
(`views/reconciliation/manual_match_views.py`) and the GRN-summary status
rollup (`document_processing/views/reconciliation/manual_match_views.py`).

Conventions of the embedding:
* Python `Decimal` / numeric values are modelled as `ℚ`; nullable columns as
  `Option ℚ` / `Option String`; dates as day ordinals (`Option ℤ`), so that a
  Python date difference `(d2 - d1).days` becomes integer subtraction.
* Python truthiness on strings / numbers is modelled by `pyTruthyStr` /
  `pyTruthyQ` (`None`, `""` and `0` are falsy).
* `str.strip()`, `str.upper()` and the substring operator `in` are modelled
  by executable character-list functions `pyStrip`, `pyUpper`, `pyIn`.
* `difflib.SequenceMatcher(...).ratio()` (description similarity) is kept
  abstract: the item-level functions take the similarity function
  `sim : String → String → ℚ` as a parameter; the only fact the source
  library guarantees, and the only one the proofs use, is that a real ratio
  lies in `[0, 1]`.
* Django querysets are modelled as lists of records; `objects.filter` as
  `List.filter`; `objects.create` under a `unique_together` constraint as a
  conditional append that fails (IntegrityError) on a duplicate key.
-/

namespace Recon

/-- Python truthiness of an optional string: `None` and `""` are falsy. -/
def pyTruthyStr : Option String → Bool
  | none => false
  | some s => !s.isEmpty

/-- Python truthiness of an optional numeric value: `None` and `0` are falsy. -/
def pyTruthyQ : Option ℚ → Bool
  | none => false
  | some q => decide (q ≠ 0)

/-- The `safe_decimal` helper used throughout both processors:
`None` becomes `Decimal(0)`, any other value is kept. -/
def safeDecimal (v : Option ℚ) : ℚ := v.getD 0

/-- Python `x or ''` on an optional string field. -/
def pyStrOrEmpty (s : Option String) : String := s.getD ""

/-- Python `str.strip()`: drop leading and trailing whitespace
(kernel-computable character-list implementation). -/
def pyStrip (s : String) : String :=
  String.mk (((s.data.dropWhile Char.isWhitespace).reverse.dropWhile Char.isWhitespace).reverse)

/-- Python `str.upper()` (kernel-computable character-list implementation). -/
def pyUpper (s : String) : String :=
  String.mk (s.data.map Char.toUpper)

/-- The `value.strip().upper()` normalisation both processors apply before
comparing identifier fields. -/
def stripUpper (s : String) : String := pyUpper (pyStrip s)

/-- Check that `pattern` occurs at the head of `text`. -/
def listStartsWith : List Char → List Char → Bool
  | [], _ => true
  | _ :: _, [] => false
  | c :: cs, d :: ds => c == d && listStartsWith cs ds

/-- Check that `pattern` occurs contiguously anywhere in `text`. -/
def listContainsSeq (pattern : List Char) : List Char → Bool
  | [] => pattern.isEmpty
  | d :: ds => listStartsWith pattern (d :: ds) || listContainsSeq pattern ds

/-- Python substring test `needle in haystack`. -/
def pyIn (needle haystack : String) : Bool := listContainsSeq needle.data haystack.data

/-- Python `int()` applied to a non-integral number truncates toward zero. -/
def pyInt (x : ℚ) : ℤ := if 0 ≤ x then ⌊x⌋ else ⌈x⌉

/-- `InvoiceData` (header invoice), restricted to the fields the
reconciliation engine reads. -/
structure InvoiceData where
  id : ℕ
  poNumber : Option String
  grnNumber : Option String
  invoiceNumber : Option String
  vendorName : Option String
  vendorGst : Option String
  invoiceDate : Option ℤ
  invoiceValueWithoutGst : Option ℚ
  cgstAmount : Option ℚ
  sgstAmount : Option ℚ
  igstAmount : Option ℚ
  invoiceTotalPostGst : Option ℚ
deriving Repr, DecidableEq

/-- `GrnSummary`, restricted to the fields the engine and the rollup read. -/
structure GrnSummary where
  poNumber : Option String
  grnNumber : Option String
  sellerInvoiceNumber : Option String
  supplierName : Option String
  pickupGstin : Option String
  grnCreatedDate : Option ℤ
  totalSubtotal : Option ℚ
  totalCgstAmount : Option ℚ
  totalSgstAmount : Option ℚ
  totalIgstAmount : Option ℚ
  totalAmount : Option ℚ
  totalItemsCount : ℕ
  isReconciled : Bool
  reconciliationStatus : Option String
deriving Repr, DecidableEq

/-- `InvoiceItemData` (invoice line item), restricted to the fields the
item-wise processor reads. -/
structure InvoiceItemData where
  id : ℕ
  invoiceDataId : ℕ
  itemSequence : ℕ
  poNumber : Option String
  invoiceNumber : Option String
  vendorName : Option String
  hsnCode : Option String
  itemDescription : Option String
  unitOfMeasurement : Option String
  quantity : Option ℚ
  unitPrice : Option ℚ
  invoiceValueItemWise : Option ℚ
  cgstRate : Option ℚ
  cgstAmount : Option ℚ
  sgstRate : Option ℚ
  sgstAmount : Option ℚ
  igstRate : Option ℚ
  igstAmount : Option ℚ
  totalTaxAmount : Option ℚ
  itemTotalAmount : Option ℚ
deriving Repr, DecidableEq

/-- `ItemWiseGrn` (receipt line item), restricted to the fields the item-wise
processor reads. -/
structure ItemWiseGrn where
  id : ℕ
  sNo : ℤ
  poNo : Option String
  grnNo : Option String
  sellerInvoiceNo : Option String
  hsnNo : Option String
  itemName : Option String
  unit : Option String
  receivedQty : Option ℚ
  price : Option ℚ
  subtotal : Option ℚ
  total : Option ℚ
  cgstTax : Option ℚ
  cgstTaxAmount : Option ℚ
  sgstTax : Option ℚ
  sgstTaxAmount : Option ℚ
  igstTax : Option ℚ
  igstTaxAmount : Option ℚ
  taxAmount : Option ℚ
deriving Repr, DecidableEq

/-- Result of the inner `calculate_variance` helper of
`RuleBasedReconciliationProcessor._evaluate_amount_tolerance`. -/
structure VarianceResult where
  varianceAmount : ℚ
  variancePct : ℚ
  withinTolerance : Bool
deriving Repr, DecidableEq

/-- `calculate_variance(invoice_val, grn_val)` from
`_evaluate_amount_tolerance` (invoice_recon.py): signed variance, percentage
`abs(variance / grn_amount * 100)` (with the fixed `0` / `100` convention when
the GRN amount is zero), and the boundary-inclusive tolerance test. -/
def calculateVariance (tolerancePercentage : ℚ) (invoiceVal grnVal : Option ℚ) : VarianceResult :=
  let invoiceAmount := safeDecimal invoiceVal
  let grnAmount := safeDecimal grnVal
  let variance := invoiceAmount - grnAmount
  let variancePct : ℚ :=
    if grnAmount ≠ 0 then |variance / grnAmount * 100|
    else if variance = 0 then 0 else 100
  { varianceAmount := variance
    variancePct := variancePct
    withinTolerance := decide (variancePct ≤ tolerancePercentage) }

/-- The tiered 15-point scoring shared by every amount/quantity/price
criterion: 15 within tolerance, 10 within 2x, 5 within 5x, 0 beyond. -/
def tieredScore (tolerancePercentage : ℚ) (withinTolerance : Bool) (variancePct : ℚ) : ℕ :=
  if withinTolerance then 15
  else if variancePct ≤ tolerancePercentage * 2 then 10
  else if variancePct ≤ tolerancePercentage * 5 then 5
  else 0

/-- Result of `_evaluate_quantity_match` / `_evaluate_price_match` /
`_evaluate_amount_match` (item_recon.py). -/
structure ToleranceEval where
  score : ℕ
  withinTolerance : Bool
  variance : ℚ
  variancePct : ℚ
deriving Repr, DecidableEq

/-- `_evaluate_quantity_match(invoice_item, grn_item)` from item_recon.py:
variance of `quantity` against `received_qty` with tiered 15-point scoring. -/
def evaluateQuantityMatch (tolerancePercentage : ℚ) (invoiceItem : InvoiceItemData)
    (grnItem : ItemWiseGrn) : ToleranceEval :=
  let invoiceQty := safeDecimal invoiceItem.quantity
  let grnQty := safeDecimal grnItem.receivedQty
  let variance := invoiceQty - grnQty
  let variancePct : ℚ :=
    if grnQty ≠ 0 then |variance / grnQty * 100|
    else if variance = 0 then 0 else 100
  let withinTolerance := decide (variancePct ≤ tolerancePercentage)
  { score := tieredScore tolerancePercentage withinTolerance variancePct
    withinTolerance := withinTolerance
    variance := variance
    variancePct := variancePct }

/-- `_evaluate_price_match(invoice_item, grn_item)` from item_recon.py:
variance of `unit_price` against `price` with tiered 15-point scoring. -/
def evaluatePriceMatch (tolerancePercentage : ℚ) (invoiceItem : InvoiceItemData)
    (grnItem : ItemWiseGrn) : ToleranceEval :=
  let invoicePrice := safeDecimal invoiceItem.unitPrice
  let grnPrice := safeDecimal grnItem.price
  let variance := invoicePrice - grnPrice
  let variancePct : ℚ :=
    if grnPrice ≠ 0 then |variance / grnPrice * 100|
    else if variance = 0 then 0 else 100
  let withinTolerance := decide (variancePct ≤ tolerancePercentage)
  { score := tieredScore tolerancePercentage withinTolerance variancePct
    withinTolerance := withinTolerance
    variance := variance
    variancePct := variancePct }

/-- `_evaluate_amount_match(invoice_item, grn_item)` from item_recon.py:
variance of `item_total_amount` against `total` (line subtotal criterion)
with tiered 15-point scoring. -/
def evaluateAmountMatch (tolerancePercentage : ℚ) (invoiceItem : InvoiceItemData)
    (grnItem : ItemWiseGrn) : ToleranceEval :=
  let invoiceTotal := safeDecimal invoiceItem.itemTotalAmount
  let grnTotal := safeDecimal grnItem.total
  let variance := invoiceTotal - grnTotal
  let variancePct : ℚ :=
    if grnTotal ≠ 0 then |variance / grnTotal * 100|
    else if variance = 0 then 0 else 100
  let withinTolerance := decide (variancePct ≤ tolerancePercentage)
  { score := tieredScore tolerancePercentage withinTolerance variancePct
    withinTolerance := withinTolerance
    variance := variance
    variancePct := variancePct }

/-- Result of `_evaluate_amount_tolerance` (invoice_recon.py). -/
structure AmountToleranceEval where
  score : ℕ
  withinTolerance : Bool
  subtotalVariance : VarianceResult
  cgstVariance : VarianceResult
  sgstVariance : VarianceResult
  igstVariance : VarianceResult
  totalVariance : VarianceResult
deriving Repr, DecidableEq

/-- `_evaluate_amount_tolerance(invoice, grn)` from invoice_recon.py: the five
header amount variances; the overall tolerance flag and the tiered 15-point
score are driven by the total-amount variance. -/
def evaluateAmountTolerance (tolerancePercentage : ℚ) (invoice : InvoiceData)
    (grn : GrnSummary) : AmountToleranceEval :=
  let subtotalVar := calculateVariance tolerancePercentage invoice.invoiceValueWithoutGst grn.totalSubtotal
  let cgstVar := calculateVariance tolerancePercentage invoice.cgstAmount grn.totalCgstAmount
  let sgstVar := calculateVariance tolerancePercentage invoice.sgstAmount grn.totalSgstAmount
  let igstVar := calculateVariance tolerancePercentage invoice.igstAmount grn.totalIgstAmount
  let totalVar := calculateVariance tolerancePercentage invoice.invoiceTotalPostGst grn.totalAmount
  { score := tieredScore tolerancePercentage totalVar.withinTolerance totalVar.variancePct
    withinTolerance := totalVar.withinTolerance
    subtotalVariance := subtotalVar
    cgstVariance := cgstVar
    sgstVariance := sgstVar
    igstVariance := igstVar
    totalVariance := totalVar }

/-- The guarded `a and b and a.strip().upper() == b.strip().upper()`
comparison both processors use on identifier fields (PO number, invoice
number, GRN number, HSN code, unit of measurement). -/
def strFieldMatch (a b : Option String) : Bool :=
  match a, b with
  | some x, some y => !x.isEmpty && !y.isEmpty && (stripUpper x == stripUpper y)
  | _, _ => false

/-- `_evaluate_vendor_match(invoice, grn)` from invoice_recon.py: exact or
substring-contains (either direction) match of normalised vendor names, else
equality of normalised GST identifiers. -/
def evaluateVendorMatch (invoice : InvoiceData) (grn : GrnSummary) : Bool :=
  let nameMatch :=
    match invoice.vendorName, grn.supplierName with
    | some v, some s =>
      if v.isEmpty || s.isEmpty then false
      else
        let invoiceVendor := stripUpper v
        let grnVendor := stripUpper s
        invoiceVendor == grnVendor || pyIn invoiceVendor grnVendor || pyIn grnVendor invoiceVendor
    | _, _ => false
  let gstMatch :=
    match invoice.vendorGst, grn.pickupGstin with
    | some a, some b => !a.isEmpty && !b.isEmpty && (stripUpper a == stripUpper b)
    | _, _ => false
  nameMatch || gstMatch

/-- `_evaluate_date_validation(invoice, grn)` from invoice_recon.py: vacuously
true when either date is missing, otherwise
`-date_tolerance_days <= (grn_created_date - invoice_date).days <= date_tolerance_days`. -/
def evaluateDateValidation (dateToleranceDays : ℤ) (invoice : InvoiceData)
    (grn : GrnSummary) : Bool :=
  match invoice.invoiceDate, grn.grnCreatedDate with
  | some invDate, some grnDate =>
    let dateDiff := grnDate - invDate
    decide (-dateToleranceDays ≤ dateDiff ∧ dateDiff ≤ dateToleranceDays)
  | _, _ => true

/-- The evaluation dictionary built by `_evaluate_single_match`
(invoice_recon.py), with the `match_details` flags lifted to fields. -/
structure HeaderEvaluation where
  grnSummary : GrnSummary
  matchScore : ℕ
  poMatch : Bool
  invoiceMatch : Bool
  grnMatch : Bool
  vendorMatch : Bool
  dateValid : Bool
  amountTolerance : Bool
  amountScore : ℕ
  variances : AmountToleranceEval
  matchStatus : String
deriving Repr, DecidableEq

/-- `_evaluate_single_match(invoice, grn)` from invoice_recon.py: weighted
header score (PO 25, invoice number 20, GRN number 15, vendor 15, date 10,
amount tier 15) and the score-to-status mapping with the fixed
amount → vendor → date mismatch precedence below the 60-point band. -/
def evaluateSingleMatch (tolerancePercentage : ℚ) (dateToleranceDays : ℤ)
    (invoice : InvoiceData) (grn : GrnSummary) : HeaderEvaluation :=
  let poMatch := strFieldMatch invoice.poNumber grn.poNumber
  let invoiceMatch := strFieldMatch invoice.invoiceNumber grn.sellerInvoiceNumber
  let grnMatch := strFieldMatch invoice.grnNumber grn.grnNumber
  let vendorMatch := evaluateVendorMatch invoice grn
  let dateValid := evaluateDateValidation dateToleranceDays invoice grn
  let amountEvaluation := evaluateAmountTolerance tolerancePercentage invoice grn
  let score :=
    (if poMatch then 25 else 0) + (if invoiceMatch then 20 else 0) +
    (if grnMatch then 15 else 0) + (if vendorMatch then 15 else 0) +
    (if dateValid then 10 else 0) + amountEvaluation.score
  let matchStatus :=
    if score ≥ 85 then "perfect_match"
    else if score ≥ 60 then "partial_match"
    else if !amountEvaluation.withinTolerance then "amount_mismatch"
    else if !vendorMatch then "vendor_mismatch"
    else if !dateValid then "date_mismatch"
    else "partial_match"
  { grnSummary := grn
    matchScore := score
    poMatch := poMatch
    invoiceMatch := invoiceMatch
    grnMatch := grnMatch
    vendorMatch := vendorMatch
    dateValid := dateValid
    amountTolerance := amountEvaluation.withinTolerance
    amountScore := amountEvaluation.score
    variances := amountEvaluation
    matchStatus := matchStatus }

/-- The accumulator loop of `_evaluate_grn_matches` (invoice_recon.py):
`best_match`/`best_score` start at `None`/`-1` and a candidate replaces the
best only when its score is strictly greater. -/
def evaluateGrnMatchesLoop (tolerancePercentage : ℚ) (dateToleranceDays : ℤ)
    (invoice : InvoiceData) :
    List GrnSummary → Option HeaderEvaluation → ℤ → Option HeaderEvaluation
  | [], best, _ => best
  | grn :: rest, best, bestScore =>
    let e := evaluateSingleMatch tolerancePercentage dateToleranceDays invoice grn
    if (e.matchScore : ℤ) > bestScore then
      evaluateGrnMatchesLoop tolerancePercentage dateToleranceDays invoice rest (some e) (e.matchScore : ℤ)
    else
      evaluateGrnMatchesLoop tolerancePercentage dateToleranceDays invoice rest best bestScore

/-- `_evaluate_grn_matches(invoice, grn_matches)` from invoice_recon.py. -/
def evaluateGrnMatches (tolerancePercentage : ℚ) (dateToleranceDays : ℤ)
    (invoice : InvoiceData) (grnMatches : List GrnSummary) : Option HeaderEvaluation :=
  evaluateGrnMatchesLoop tolerancePercentage dateToleranceDays invoice grnMatches none (-1)

/-- Header Strategy 1 filter: `po_number`, `grn_number` and
`seller_invoice_number` all equal to the invoice fields. -/
def headerStrategy1 (grnTable : List GrnSummary) (invoice : InvoiceData) : List GrnSummary :=
  grnTable.filter (fun g =>
    g.poNumber == invoice.poNumber && g.grnNumber == invoice.grnNumber &&
    g.sellerInvoiceNumber == invoice.invoiceNumber)

/-- Header Strategy 2 filter: PO number and seller invoice number. -/
def headerStrategy2 (grnTable : List GrnSummary) (invoice : InvoiceData) : List GrnSummary :=
  grnTable.filter (fun g =>
    g.poNumber == invoice.poNumber && g.sellerInvoiceNumber == invoice.invoiceNumber)

/-- Header Strategy 3 filter: PO number and GRN number. -/
def headerStrategy3 (grnTable : List GrnSummary) (invoice : InvoiceData) : List GrnSummary :=
  grnTable.filter (fun g =>
    g.poNumber == invoice.poNumber && g.grnNumber == invoice.grnNumber)

/-- Header Strategy 4 filter: PO number only. -/
def headerStrategy4 (grnTable : List GrnSummary) (invoice : InvoiceData) : List GrnSummary :=
  grnTable.filter (fun g => g.poNumber == invoice.poNumber)

/-- Header Strategy 5 filter: seller invoice number only. -/
def headerStrategy5 (grnTable : List GrnSummary) (invoice : InvoiceData) : List GrnSummary :=
  grnTable.filter (fun g => g.sellerInvoiceNumber == invoice.invoiceNumber)

/-- Header Strategy 6 filter: pickup GSTIN equal to the invoice vendor GST. -/
def headerStrategy6 (grnTable : List GrnSummary) (invoice : InvoiceData) : List GrnSummary :=
  grnTable.filter (fun g => g.pickupGstin == invoice.vendorGst)

/-- `_find_grn_matches_hierarchical(invoice)` from invoice_recon.py: the six
header fallback strategies tried in order; a strategy runs only when the
invoice fields it needs are truthy, and the first non-empty result is
returned. -/
def findGrnMatchesHierarchical (grnTable : List GrnSummary) (invoice : InvoiceData) : List GrnSummary :=
  if pyTruthyStr invoice.poNumber && pyTruthyStr invoice.grnNumber &&
      pyTruthyStr invoice.invoiceNumber && !(headerStrategy1 grnTable invoice).isEmpty then
    headerStrategy1 grnTable invoice
  else if pyTruthyStr invoice.poNumber && pyTruthyStr invoice.invoiceNumber &&
      !(headerStrategy2 grnTable invoice).isEmpty then
    headerStrategy2 grnTable invoice
  else if pyTruthyStr invoice.poNumber && pyTruthyStr invoice.grnNumber &&
      !(headerStrategy3 grnTable invoice).isEmpty then
    headerStrategy3 grnTable invoice
  else if pyTruthyStr invoice.poNumber && !(headerStrategy4 grnTable invoice).isEmpty then
    headerStrategy4 grnTable invoice
  else if pyTruthyStr invoice.invoiceNumber && !(headerStrategy5 grnTable invoice).isEmpty then
    headerStrategy5 grnTable invoice
  else if pyTruthyStr invoice.vendorGst && !(headerStrategy6 grnTable invoice).isEmpty then
    headerStrategy6 grnTable invoice
  else []

/-- Evaluate an ordered list of (guard, candidate set) strategy pairs and
return the candidate set of the first applicable strategy that yields at
least one candidate. Modelled from the spec: "ordered fallback hierarchy,
short-circuiting at the first strategy that yields results; strategies whose
required invoice fields are missing are skipped; returns empty when every
strategy fails". -/
def firstNonEmptyStrategy {α : Type} : List (Bool × List α) → List α
  | [] => []
  | (guard, candidates) :: rest =>
    if guard && !candidates.isEmpty then candidates else firstNonEmptyStrategy rest

/-- The header hierarchy written as an ordered strategy list, following the
spec sentence for §4.1 word by word (used as the specification side of the
refinement theorem for the Candidate Finder). -/
def specHeaderHierarchy (grnTable : List GrnSummary) (invoice : InvoiceData) : List GrnSummary :=
  firstNonEmptyStrategy
    [ (pyTruthyStr invoice.poNumber && pyTruthyStr invoice.grnNumber && pyTruthyStr invoice.invoiceNumber,
        headerStrategy1 grnTable invoice),
      (pyTruthyStr invoice.poNumber && pyTruthyStr invoice.invoiceNumber,
        headerStrategy2 grnTable invoice),
      (pyTruthyStr invoice.poNumber && pyTruthyStr invoice.grnNumber,
        headerStrategy3 grnTable invoice),
      (pyTruthyStr invoice.poNumber, headerStrategy4 grnTable invoice),
      (pyTruthyStr invoice.invoiceNumber, headerStrategy5 grnTable invoice),
      (pyTruthyStr invoice.vendorGst, headerStrategy6 grnTable invoice) ]

/-- `_calculate_description_similarity(desc1, desc2)` from item_recon.py:
`0.0` when either description is falsy, otherwise the (abstracted)
`SequenceMatcher` ratio of the cleaned texts. -/
def calcDescriptionSimilarity (sim : String → String → ℚ) (desc1 desc2 : Option String) : ℚ :=
  match desc1, desc2 with
  | some a, some b => if a.isEmpty || b.isEmpty then 0 else sim a b
  | _, _ => 0

/-- Line Strategy 1: PO + seller invoice number + HSN code, then filtered by
description similarity at least 0.6. -/
def itemStrategy1 (sim : String → String → ℚ) (grnItems : List ItemWiseGrn)
    (invoiceItem : InvoiceItemData) : List ItemWiseGrn :=
  (grnItems.filter (fun g =>
    g.poNo == invoiceItem.poNumber && g.sellerInvoiceNo == invoiceItem.invoiceNumber &&
    g.hsnNo == invoiceItem.hsnCode)).filter (fun g =>
      decide (calcDescriptionSimilarity sim invoiceItem.itemDescription g.itemName ≥ 6/10))

/-- Line Strategy 2: PO + HSN code. -/
def itemStrategy2 (grnItems : List ItemWiseGrn) (invoiceItem : InvoiceItemData) : List ItemWiseGrn :=
  grnItems.filter (fun g =>
    g.poNo == invoiceItem.poNumber && g.hsnNo == invoiceItem.hsnCode)

/-- Line Strategy 3: PO + seller invoice number. -/
def itemStrategy3 (grnItems : List ItemWiseGrn) (invoiceItem : InvoiceItemData) : List ItemWiseGrn :=
  grnItems.filter (fun g =>
    g.poNo == invoiceItem.poNumber && g.sellerInvoiceNo == invoiceItem.invoiceNumber)

/-- Line Strategy 4: all PO candidates filtered by description similarity at
least 0.7. -/
def itemStrategy4 (sim : String → String → ℚ) (grnItems : List ItemWiseGrn)
    (invoiceItem : InvoiceItemData) : List ItemWiseGrn :=
  (grnItems.filter (fun g => g.poNo == invoiceItem.poNumber)).filter (fun g =>
    decide (calcDescriptionSimilarity sim invoiceItem.itemDescription g.itemName ≥ 7/10))

/-- Stable insertion into a list ordered by ascending `s_no`. -/
def insertBySNo (x : ItemWiseGrn) : List ItemWiseGrn → List ItemWiseGrn
  | [] => [x]
  | y :: ys => if x.sNo < y.sNo then x :: y :: ys else y :: insertBySNo x ys

/-- Stable ascending sort by `s_no`, modelling `order_by('s_no')`. -/
def sortBySNo : List ItemWiseGrn → List ItemWiseGrn
  | [] => []
  | x :: xs => insertBySNo x (sortBySNo xs)

/-- Line Strategy 5: all PO candidates ordered by `s_no` (receipt sequence
number). -/
def itemStrategy5 (grnItems : List ItemWiseGrn) (invoiceItem : InvoiceItemData) : List ItemWiseGrn :=
  sortBySNo (grnItems.filter (fun g => g.poNo == invoiceItem.poNumber))

/-- `_find_grn_item_matches(invoice_item)` from item_recon.py: short-circuits
to empty when the invoice item has no PO number, then tries the five line
strategies in order, returning the first non-empty candidate set. -/
def findGrnItemMatches (sim : String → String → ℚ) (grnItems : List ItemWiseGrn)
    (invoiceItem : InvoiceItemData) : List ItemWiseGrn :=
  if !pyTruthyStr invoiceItem.poNumber then []
  else if pyTruthyStr invoiceItem.invoiceNumber && pyTruthyStr invoiceItem.hsnCode &&
      !(itemStrategy1 sim grnItems invoiceItem).isEmpty then
    itemStrategy1 sim grnItems invoiceItem
  else if pyTruthyStr invoiceItem.hsnCode && !(itemStrategy2 grnItems invoiceItem).isEmpty then
    itemStrategy2 grnItems invoiceItem
  else if pyTruthyStr invoiceItem.invoiceNumber && !(itemStrategy3 grnItems invoiceItem).isEmpty then
    itemStrategy3 grnItems invoiceItem
  else if pyTruthyStr invoiceItem.itemDescription && !(itemStrategy4 sim grnItems invoiceItem).isEmpty then
    itemStrategy4 sim grnItems invoiceItem
  else if !(itemStrategy5 grnItems invoiceItem).isEmpty then
    itemStrategy5 grnItems invoiceItem
  else []

/-- The line hierarchy written as an ordered strategy list, following the
spec sentence for §4.1 word by word, guarded by the mandatory PO number
(specification side of the refinement theorem). -/
def specLineHierarchy (sim : String → String → ℚ) (grnItems : List ItemWiseGrn)
    (invoiceItem : InvoiceItemData) : List ItemWiseGrn :=
  if !pyTruthyStr invoiceItem.poNumber then []
  else
    firstNonEmptyStrategy
      [ (pyTruthyStr invoiceItem.invoiceNumber && pyTruthyStr invoiceItem.hsnCode,
          itemStrategy1 sim grnItems invoiceItem),
        (pyTruthyStr invoiceItem.hsnCode, itemStrategy2 grnItems invoiceItem),
        (pyTruthyStr invoiceItem.invoiceNumber, itemStrategy3 grnItems invoiceItem),
        (pyTruthyStr invoiceItem.itemDescription, itemStrategy4 sim grnItems invoiceItem),
        (true, itemStrategy5 grnItems invoiceItem) ]

/-- `_check_tax_rate_match(invoice_item, grn_item)` from item_recon.py: a
CGST/SGST/IGST rate pair is compared only when both sides are truthy, with a
0.1 percentage-point tolerance; any compared pair beyond the tolerance fails
the criterion. -/
def checkTaxRateMatch (invoiceItem : InvoiceItemData) (grnItem : ItemWiseGrn) : Bool :=
  let tolerance : ℚ := 1/10
  let cgstOk :=
    if pyTruthyQ invoiceItem.cgstRate && pyTruthyQ grnItem.cgstTax then
      decide (|safeDecimal invoiceItem.cgstRate - safeDecimal grnItem.cgstTax| ≤ tolerance)
    else true
  let sgstOk :=
    if pyTruthyQ invoiceItem.sgstRate && pyTruthyQ grnItem.sgstTax then
      decide (|safeDecimal invoiceItem.sgstRate - safeDecimal grnItem.sgstTax| ≤ tolerance)
    else true
  let igstOk :=
    if pyTruthyQ invoiceItem.igstRate && pyTruthyQ grnItem.igstTax then
      decide (|safeDecimal invoiceItem.igstRate - safeDecimal grnItem.igstTax| ≤ tolerance)
    else true
  cgstOk && sgstOk && igstOk

/-- The evaluation dictionary built by `_evaluate_single_item_match`
(item_recon.py), with the `match_details` entries lifted to fields. -/
structure ItemEvaluation where
  grnItem : ItemWiseGrn
  matchScore : ℤ
  hsnMatch : Bool
  taxRateMatch : Bool
  descriptionSimilarity : ℚ
  descriptionScore : ℤ
  unitMatch : Bool
  quantityEval : ToleranceEval
  priceEval : ToleranceEval
  amountEval : ToleranceEval
  matchStatus : String
deriving Repr, DecidableEq

/-- The ordered list of failing-criterion tags built by
`_evaluate_single_item_match`. -/
def mismatchTypes (hsnMatch taxRateMatch subtotalOk quantityOk priceOk : Bool) : List String :=
  (if !hsnMatch then ["hsn_mismatch"] else []) ++
  (if !taxRateMatch then ["tax_rate_mismatch"] else []) ++
  (if !subtotalOk then ["subtotal_mismatch"] else []) ++
  (if !quantityOk then ["quantity_mismatch"] else []) ++
  (if !priceOk then ["price_mismatch"] else [])

/-- `_evaluate_single_item_match(invoice_item, grn_item)` from item_recon.py:
HSN 25, tax rates 15, `int(similarity * 20)`, tiered quantity / unit price /
line total 15 each, unit of measurement 10; `match_status` is the
comma-joined list of failing criteria, or `perfect_match` when none fail. -/
def evaluateSingleItemMatch (sim : String → String → ℚ) (tolerancePercentage : ℚ)
    (invoiceItem : InvoiceItemData) (grnItem : ItemWiseGrn) : ItemEvaluation :=
  let hsnMatch := strFieldMatch invoiceItem.hsnCode grnItem.hsnNo
  let taxRateMatch := checkTaxRateMatch invoiceItem grnItem
  let descriptionSimilarity := calcDescriptionSimilarity sim invoiceItem.itemDescription grnItem.itemName
  let descriptionScore : ℤ := pyInt (descriptionSimilarity * 20)
  let quantityEvaluation := evaluateQuantityMatch tolerancePercentage invoiceItem grnItem
  let priceEvaluation := evaluatePriceMatch tolerancePercentage invoiceItem grnItem
  let amountEvaluation := evaluateAmountMatch tolerancePercentage invoiceItem grnItem
  let unitMatch := strFieldMatch invoiceItem.unitOfMeasurement grnItem.unit
  let score : ℤ :=
    (if hsnMatch then 25 else 0) + (if taxRateMatch then 15 else 0) + descriptionScore +
    (quantityEvaluation.score : ℤ) + (priceEvaluation.score : ℤ) + (amountEvaluation.score : ℤ) +
    (if unitMatch then 10 else 0)
  let tags := mismatchTypes hsnMatch taxRateMatch amountEvaluation.withinTolerance
    quantityEvaluation.withinTolerance priceEvaluation.withinTolerance
  let matchStatus := if tags.length = 0 then "perfect_match" else String.intercalate ", " tags
  { grnItem := grnItem
    matchScore := score
    hsnMatch := hsnMatch
    taxRateMatch := taxRateMatch
    descriptionSimilarity := descriptionSimilarity
    descriptionScore := descriptionScore
    unitMatch := unitMatch
    quantityEval := quantityEvaluation
    priceEval := priceEvaluation
    amountEval := amountEvaluation
    matchStatus := matchStatus }

/-- The best-match accumulator loop of `_evaluate_grn_item_matches`
(item_recon.py), identical in shape to the header loop. -/
def evaluateGrnItemMatchesLoop (sim : String → String → ℚ) (tolerancePercentage : ℚ)
    (invoiceItem : InvoiceItemData) :
    List ItemWiseGrn → Option ItemEvaluation → ℤ → Option ItemEvaluation
  | [], best, _ => best
  | grnItem :: rest, best, bestScore =>
    let e := evaluateSingleItemMatch sim tolerancePercentage invoiceItem grnItem
    if e.matchScore > bestScore then
      evaluateGrnItemMatchesLoop sim tolerancePercentage invoiceItem rest (some e) e.matchScore
    else
      evaluateGrnItemMatchesLoop sim tolerancePercentage invoiceItem rest best bestScore

/-- `_evaluate_grn_item_matches(invoice_item, grn_matches)` from
item_recon.py. -/
def evaluateGrnItemMatches (sim : String → String → ℚ) (tolerancePercentage : ℚ)
    (invoiceItem : InvoiceItemData) (grnMatches : List ItemWiseGrn) : Option ItemEvaluation :=
  evaluateGrnItemMatchesLoop sim tolerancePercentage invoiceItem grnMatches none (-1)

/-- The `InvoiceGrnReconciliation` model row (models/reconciliation.py),
restricted to the fields read or written by the code under verification;
fields that no claim touches are omitted. -/
structure InvoiceGrnReconciliationRec where
  invoiceDataId : ℕ
  poNumber : String
  grnNumber : String
  invoiceNumber : String
  matchStatus : String
  vendorMatch : Bool
  gstMatch : Bool
  dateValid : Bool
  totalVariance : Option ℚ
  grnTotal : Option ℚ
  totalGrnLineItems : ℕ
  toleranceApplied : ℚ
  matchingMethod : String
  isAutoMatched : Bool
  reconciliationNotes : String
  overallMatchStatus : Option String
  requiresReview : Bool
  isException : Bool
deriving Repr, DecidableEq

/-- The Django column defaults of `InvoiceGrnReconciliation`: the state of a
row before `objects.create` assigns the keyword fields. -/
def defaultHeaderRec : InvoiceGrnReconciliationRec :=
  { invoiceDataId := 0
    poNumber := ""
    grnNumber := ""
    invoiceNumber := ""
    matchStatus := "no_match"
    vendorMatch := false
    gstMatch := false
    dateValid := false
    totalVariance := none
    grnTotal := none
    totalGrnLineItems := 0
    toleranceApplied := 2
    matchingMethod := ""
    isAutoMatched := true
    reconciliationNotes := ""
    overallMatchStatus := none
    requiresReview := false
    isException := false }

/-- The `is_within_tolerance` property of `InvoiceGrnReconciliation`: false
when the total variance or GRN total is missing or the GRN total is zero,
otherwise `abs(total_variance / grn_total) * 100 <= tolerance_applied`. -/
def headerIsWithinTolerance (r : InvoiceGrnReconciliationRec) : Bool :=
  match r.totalVariance, r.grnTotal with
  | some tv, some gt =>
    if gt = 0 then false else decide (|tv / gt| * 100 ≤ r.toleranceApplied)
  | _, _ => false

/-- The local `variance_pct` computed inside `InvoiceGrnReconciliation.save`:
`abs(total_variance / grn_total) * 100` when both are present and the GRN
total is nonzero, else `0`. -/
def headerSaveVariancePct (r : InvoiceGrnReconciliationRec) : ℚ :=
  match r.totalVariance, r.grnTotal with
  | some tv, some gt => if gt ≠ 0 then |tv / gt| * 100 else 0
  | _, _ => 0

/-- `InvoiceGrnReconciliation.save` (models/reconciliation.py): recomputes
`requires_review` from the fixed status list
`['amount_mismatch', 'vendor_mismatch', 'multiple_grn']`, the
`is_within_tolerance` property and the GRN line-item count, and
`is_exception` from the no-match statuses and the 10% total variance
threshold, before persisting the row. -/
def invoiceGrnReconSave (r : InvoiceGrnReconciliationRec) : InvoiceGrnReconciliationRec :=
  { r with
    requiresReview :=
      (r.matchStatus == "amount_mismatch" || r.matchStatus == "vendor_mismatch" ||
        r.matchStatus == "multiple_grn") ||
      !headerIsWithinTolerance r || r.totalGrnLineItems == 0
    isException :=
      (r.matchStatus == "no_match" || r.matchStatus == "no_grn_found") ||
      decide (headerSaveVariancePct r > 10) }

/-- The `matching_method` selection of `_create_reconciliation_record`
(invoice_recon.py). -/
def matchingMethodOf (e : HeaderEvaluation) : String :=
  if e.poMatch && e.grnMatch && e.invoiceMatch then "exact_match"
  else if e.poMatch && e.grnMatch then "po_grn_match"
  else if e.poMatch then "po_only_match"
  else "fallback_match"

/-- `_create_reconciliation_record(invoice, match_evaluation)` from
invoice_recon.py, composed with the model `save` override that
`objects.create` runs (snapshot fields that no claim reads are omitted). -/
def createReconciliationRecord (tolerancePercentage : ℚ) (invoice : InvoiceData)
    (e : HeaderEvaluation) : InvoiceGrnReconciliationRec :=
  invoiceGrnReconSave
    { defaultHeaderRec with
      invoiceDataId := invoice.id
      poNumber := pyStrOrEmpty invoice.poNumber
      grnNumber := pyStrOrEmpty e.grnSummary.grnNumber
      invoiceNumber := pyStrOrEmpty invoice.invoiceNumber
      matchStatus := e.matchStatus
      vendorMatch := e.vendorMatch
      gstMatch :=
        (match invoice.vendorGst, e.grnSummary.pickupGstin with
         | some a, some b => if !a.isEmpty && !b.isEmpty then a == b else false
         | _, _ => false)
      dateValid := e.dateValid
      totalVariance := some e.variances.totalVariance.varianceAmount
      grnTotal := some (safeDecimal e.grnSummary.totalAmount)
      totalGrnLineItems := e.grnSummary.totalItemsCount
      matchingMethod := matchingMethodOf e
      isAutoMatched := true
      toleranceApplied := tolerancePercentage
      overallMatchStatus := some "pending" }

/-- `_create_no_match_record(invoice)` from invoice_recon.py, composed with
the model `save` override. -/
def createNoMatchRecord (tolerancePercentage : ℚ) (invoice : InvoiceData) :
    InvoiceGrnReconciliationRec :=
  invoiceGrnReconSave
    { defaultHeaderRec with
      invoiceDataId := invoice.id
      poNumber := pyStrOrEmpty invoice.poNumber
      invoiceNumber := pyStrOrEmpty invoice.invoiceNumber
      matchStatus := "no_grn_found"
      totalGrnLineItems := 0
      isAutoMatched := true
      matchingMethod := "rule_based_matching"
      toleranceApplied := tolerancePercentage
      overallMatchStatus := some "pending" }

/-- The `InvoiceItemReconciliation` model row (models/reconciliation.py),
restricted to the fields read or written by the code under verification. -/
structure InvoiceItemReconciliationRec where
  invoiceDataId : ℕ
  invoiceItemDataId : ℕ
  grnItemId : Option ℕ
  reconciliationBatchId : String
  matchStatus : String
  matchScore : ℚ
  invoiceItemSequence : ℕ
  invoiceItemDescription : Option String
  invoiceItemHsn : Option String
  invoiceItemQuantity : Option ℚ
  invoiceItemUnit : Option String
  invoiceItemUnitPrice : Option ℚ
  invoiceItemSubtotal : Option ℚ
  invoiceItemCgstRate : Option ℚ
  invoiceItemCgstAmount : Option ℚ
  invoiceItemSgstRate : Option ℚ
  invoiceItemSgstAmount : Option ℚ
  invoiceItemIgstRate : Option ℚ
  invoiceItemIgstAmount : Option ℚ
  invoiceItemTotalTax : Option ℚ
  invoiceItemTotalAmount : Option ℚ
  grnItemDescription : Option String
  grnItemHsn : Option String
  grnItemQuantity : Option ℚ
  grnItemUnit : Option String
  grnItemUnitPrice : Option ℚ
  grnItemSubtotal : Option ℚ
  grnItemCgstRate : Option ℚ
  grnItemCgstAmount : Option ℚ
  grnItemSgstRate : Option ℚ
  grnItemSgstAmount : Option ℚ
  grnItemIgstRate : Option ℚ
  grnItemIgstAmount : Option ℚ
  grnItemTotalTax : Option ℚ
  grnItemTotalAmount : Option ℚ
  quantityVariance : Option ℚ
  quantityVariancePercentage : Option ℚ
  subtotalVariance : Option ℚ
  subtotalVariancePercentage : Option ℚ
  totalAmountVariance : Option ℚ
  totalAmountVariancePercentage : Option ℚ
  unitRateVariance : Option ℚ
  cgstVariance : Option ℚ
  sgstVariance : Option ℚ
  igstVariance : Option ℚ
  totalTaxVariance : Option ℚ
  isWithinAmountTolerance : Bool
  isWithinQuantityTolerance : Bool
  tolerancePercentageApplied : ℚ
  quantityTolerancePercentageApplied : ℚ
  isAutoMatched : Bool
  manualMatch : Bool
  reconciliationNotes : Option String
  overallMatchStatus : Option String
  poNumber : String
  invoiceNumber : String
  grnNumber : Option String
  vendorName : String
  requiresReview : Bool
  isException : Bool
deriving Repr, DecidableEq

/-- The Django column defaults of `InvoiceItemReconciliation`. -/
def defaultItemRec : InvoiceItemReconciliationRec :=
  { invoiceDataId := 0
    invoiceItemDataId := 0
    grnItemId := none
    reconciliationBatchId := ""
    matchStatus := "no_match"
    matchScore := 0
    invoiceItemSequence := 0
    invoiceItemDescription := none
    invoiceItemHsn := none
    invoiceItemQuantity := none
    invoiceItemUnit := none
    invoiceItemUnitPrice := none
    invoiceItemSubtotal := none
    invoiceItemCgstRate := none
    invoiceItemCgstAmount := none
    invoiceItemSgstRate := none
    invoiceItemSgstAmount := none
    invoiceItemIgstRate := none
    invoiceItemIgstAmount := none
    invoiceItemTotalTax := none
    invoiceItemTotalAmount := none
    grnItemDescription := none
    grnItemHsn := none
    grnItemQuantity := none
    grnItemUnit := none
    grnItemUnitPrice := none
    grnItemSubtotal := none
    grnItemCgstRate := none
    grnItemCgstAmount := none
    grnItemSgstRate := none
    grnItemSgstAmount := none
    grnItemIgstRate := none
    grnItemIgstAmount := none
    grnItemTotalTax := none
    grnItemTotalAmount := none
    quantityVariance := none
    quantityVariancePercentage := none
    subtotalVariance := none
    subtotalVariancePercentage := none
    totalAmountVariance := none
    totalAmountVariancePercentage := none
    unitRateVariance := none
    cgstVariance := none
    sgstVariance := none
    igstVariance := none
    totalTaxVariance := none
    isWithinAmountTolerance := false
    isWithinQuantityTolerance := false
    tolerancePercentageApplied := 2
    quantityTolerancePercentageApplied := 5
    isAutoMatched := true
    manualMatch := false
    reconciliationNotes := none
    overallMatchStatus := none
    poNumber := ""
    invoiceNumber := ""
    grnNumber := none
    vendorName := ""
    requiresReview := false
    isException := false }

/-- The `has_significant_variance` property of `InvoiceItemReconciliation`:
true when either tolerance flag is false or any of the quantity / subtotal /
total-amount variance percentages is truthy and exceeds 10 in absolute
value. -/
def itemHasSignificantVariance (r : InvoiceItemReconciliationRec) : Bool :=
  if !r.isWithinAmountTolerance || !r.isWithinQuantityTolerance then true
  else
    [r.quantityVariancePercentage, r.subtotalVariancePercentage,
      r.totalAmountVariancePercentage].any
      (fun v => pyTruthyQ v && decide (|safeDecimal v| > 10))

/-- `InvoiceItemReconciliation.save` (models/reconciliation.py): recomputes
`requires_review` from the fixed status list
`['amount_mismatch', 'quantity_mismatch', 'no_match']`, the two tolerance
flags and `has_significant_variance`, and `is_exception` from the `no_match`
status and the 15% total-amount variance threshold (Python truthiness guards
the threshold test). -/
def invoiceItemReconSave (r : InvoiceItemReconciliationRec) : InvoiceItemReconciliationRec :=
  { r with
    requiresReview :=
      (r.matchStatus == "amount_mismatch" || r.matchStatus == "quantity_mismatch" ||
        r.matchStatus == "no_match") ||
      !r.isWithinAmountTolerance || !r.isWithinQuantityTolerance ||
      itemHasSignificantVariance r
    isException :=
      r.matchStatus == "no_match" ||
      (pyTruthyQ r.totalAmountVariancePercentage &&
        decide (|safeDecimal r.totalAmountVariancePercentage| > 15)) }

/-- The overall-match rollup of `_create_item_reconciliation_record`
(item_recon.py): `complete_match` when all five criteria pass,
`conditional_match` when the three core criteria (subtotal, HSN, tax rate)
pass, else `mismatch`. -/
def itemOverallStatus (subtotalOk quantityOk priceOk hsnOk taxRateOk : Bool) : String :=
  if subtotalOk && quantityOk && priceOk && hsnOk && taxRateOk then "complete_match"
  else if subtotalOk && hsnOk && taxRateOk then "conditional_match"
  else "mismatch"

/-- `_create_item_reconciliation_record(invoice_item, match_evaluation)` from
item_recon.py, composed with the model `save` override that `objects.create`
runs. The free-text `reconciliation_notes` string (which only interpolates
the score for logging) is abstracted to its fixed head. -/
def createItemReconciliationRecord (tolerancePercentage : ℚ) (batchId : String)
    (invoiceItem : InvoiceItemData) (e : ItemEvaluation) : InvoiceItemReconciliationRec :=
  invoiceItemReconSave
    { defaultItemRec with
      invoiceDataId := invoiceItem.invoiceDataId
      invoiceItemDataId := invoiceItem.id
      grnItemId := some e.grnItem.id
      reconciliationBatchId := batchId
      matchStatus := e.matchStatus
      matchScore := (e.matchScore : ℚ) / 100
      invoiceItemSequence := invoiceItem.itemSequence
      invoiceItemDescription := some (pyStrOrEmpty invoiceItem.itemDescription)
      invoiceItemHsn := some (pyStrOrEmpty invoiceItem.hsnCode)
      invoiceItemQuantity := invoiceItem.quantity
      invoiceItemUnit := some (pyStrOrEmpty invoiceItem.unitOfMeasurement)
      invoiceItemUnitPrice := invoiceItem.unitPrice
      invoiceItemSubtotal := invoiceItem.invoiceValueItemWise
      invoiceItemCgstRate := invoiceItem.cgstRate
      invoiceItemCgstAmount := invoiceItem.cgstAmount
      invoiceItemSgstRate := invoiceItem.sgstRate
      invoiceItemSgstAmount := invoiceItem.sgstAmount
      invoiceItemIgstRate := invoiceItem.igstRate
      invoiceItemIgstAmount := invoiceItem.igstAmount
      invoiceItemTotalTax := invoiceItem.totalTaxAmount
      invoiceItemTotalAmount := invoiceItem.itemTotalAmount
      grnItemDescription := some (pyStrOrEmpty e.grnItem.itemName)
      grnItemHsn := some (pyStrOrEmpty e.grnItem.hsnNo)
      grnItemQuantity := e.grnItem.receivedQty
      grnItemUnit := some (pyStrOrEmpty e.grnItem.unit)
      grnItemUnitPrice := e.grnItem.price
      grnItemSubtotal := e.grnItem.subtotal
      grnItemCgstRate := e.grnItem.cgstTax
      grnItemCgstAmount := e.grnItem.cgstTaxAmount
      grnItemSgstRate := e.grnItem.sgstTax
      grnItemSgstAmount := e.grnItem.sgstTaxAmount
      grnItemIgstRate := e.grnItem.igstTax
      grnItemIgstAmount := e.grnItem.igstTaxAmount
      grnItemTotalTax := e.grnItem.taxAmount
      grnItemTotalAmount := e.grnItem.total
      quantityVariance := some e.quantityEval.variance
      quantityVariancePercentage := some e.quantityEval.variancePct
      subtotalVariance := some e.amountEval.variance
      subtotalVariancePercentage := some e.amountEval.variancePct
      totalAmountVariance := some e.amountEval.variance
      totalAmountVariancePercentage := some e.amountEval.variancePct
      unitRateVariance := some e.priceEval.variance
      cgstVariance :=
        if pyTruthyQ invoiceItem.cgstAmount && pyTruthyQ e.grnItem.cgstTaxAmount then
          some (safeDecimal invoiceItem.cgstAmount - safeDecimal e.grnItem.cgstTaxAmount)
        else none
      sgstVariance :=
        if pyTruthyQ invoiceItem.sgstAmount && pyTruthyQ e.grnItem.sgstTaxAmount then
          some (safeDecimal invoiceItem.sgstAmount - safeDecimal e.grnItem.sgstTaxAmount)
        else none
      igstVariance :=
        if pyTruthyQ invoiceItem.igstAmount && pyTruthyQ e.grnItem.igstTaxAmount then
          some (safeDecimal invoiceItem.igstAmount - safeDecimal e.grnItem.igstTaxAmount)
        else none
      totalTaxVariance :=
        if pyTruthyQ invoiceItem.totalTaxAmount && pyTruthyQ e.grnItem.taxAmount then
          some (safeDecimal invoiceItem.totalTaxAmount - safeDecimal e.grnItem.taxAmount)
        else none
      isWithinAmountTolerance := e.amountEval.withinTolerance
      isWithinQuantityTolerance := e.quantityEval.withinTolerance
      tolerancePercentageApplied := tolerancePercentage
      quantityTolerancePercentageApplied := 5
      isAutoMatched := true
      reconciliationNotes := some "Item-wise rule-based matching."
      poNumber := pyStrOrEmpty invoiceItem.poNumber
      invoiceNumber := pyStrOrEmpty invoiceItem.invoiceNumber
      grnNumber := some (pyStrOrEmpty e.grnItem.grnNo)
      vendorName := pyStrOrEmpty invoiceItem.vendorName
      overallMatchStatus := some (itemOverallStatus e.amountEval.withinTolerance
        e.quantityEval.withinTolerance e.priceEval.withinTolerance e.hsnMatch
        (checkTaxRateMatch invoiceItem e.grnItem)) }

/-- The `swap_direction` request parameter of `ManualMatchAPI`. -/
inductive SwapDirection where
  | invoiceToGrn
  | grnToInvoice
deriving Repr, DecidableEq

/-- The wire value of a `swap_direction`. -/
def swapDirectionString : SwapDirection → String
  | .invoiceToGrn => "invoice_to_grn"
  | .grnToInvoice => "grn_to_invoice"

/-- The 14 invoice-side/GRN-side field pairs of
`ManualMatchAPI._get_field_mappings`. -/
inductive CopyField where
  | description
  | hsn
  | quantity
  | unit
  | unitPrice
  | subtotal
  | cgstRate
  | cgstAmount
  | sgstRate
  | sgstAmount
  | igstRate
  | igstAmount
  | totalTax
  | totalAmount
deriving Repr, DecidableEq

/-- `all_field_mappings` of `_get_field_mappings`, in source order. -/
def allFieldMappings : List CopyField :=
  [.description, .hsn, .quantity, .unit, .unitPrice, .subtotal, .cgstRate, .cgstAmount,
    .sgstRate, .sgstAmount, .igstRate, .igstAmount, .totalTax, .totalAmount]

/-- The `field_aliases` table of `_get_field_mappings`; the allowed request
fields are exactly the alias keys plus `all`, so the direct-field-name branch
of the source is unreachable and an unknown field contributes nothing. -/
def fieldAlias (field : String) : List CopyField :=
  if field == "description" then [.description]
  else if field == "hsn" then [.hsn]
  else if field == "quantity" then [.quantity]
  else if field == "unit" then [.unit]
  else if field == "unit_price" then [.unitPrice]
  else if field == "subtotal" then [.subtotal]
  else if field == "cgst" then [.cgstRate, .cgstAmount]
  else if field == "sgst" then [.sgstRate, .sgstAmount]
  else if field == "igst" then [.igstRate, .igstAmount]
  else if field == "total_amount" then [.totalAmount]
  else []

/-- `_get_field_mappings(fields_to_swap)`: all 14 pairs when `all` is
requested, otherwise the union (first-insertion order, no duplicates) of the
aliases of the requested fields. -/
def getFieldMappings (fieldsToSwap : List String) : List CopyField :=
  if fieldsToSwap.contains "all" then allFieldMappings
  else
    fieldsToSwap.foldl (fun acc field =>
      (fieldAlias field).foldl (fun acc2 k => if acc2.contains k then acc2 else acc2 ++ [k]) acc) []

/-- One `setattr` copy step of `ManualMatchAPI.post`: `invoice_to_grn` copies
the invoice-side snapshot onto the GRN-side field, `grn_to_invoice` the
reverse. -/
def copyFieldValue (direction : SwapDirection) (r : InvoiceItemReconciliationRec)
    (k : CopyField) : InvoiceItemReconciliationRec :=
  match direction with
  | .invoiceToGrn =>
    match k with
    | .description => { r with grnItemDescription := r.invoiceItemDescription }
    | .hsn => { r with grnItemHsn := r.invoiceItemHsn }
    | .quantity => { r with grnItemQuantity := r.invoiceItemQuantity }
    | .unit => { r with grnItemUnit := r.invoiceItemUnit }
    | .unitPrice => { r with grnItemUnitPrice := r.invoiceItemUnitPrice }
    | .subtotal => { r with grnItemSubtotal := r.invoiceItemSubtotal }
    | .cgstRate => { r with grnItemCgstRate := r.invoiceItemCgstRate }
    | .cgstAmount => { r with grnItemCgstAmount := r.invoiceItemCgstAmount }
    | .sgstRate => { r with grnItemSgstRate := r.invoiceItemSgstRate }
    | .sgstAmount => { r with grnItemSgstAmount := r.invoiceItemSgstAmount }
    | .igstRate => { r with grnItemIgstRate := r.invoiceItemIgstRate }
    | .igstAmount => { r with grnItemIgstAmount := r.invoiceItemIgstAmount }
    | .totalTax => { r with grnItemTotalTax := r.invoiceItemTotalTax }
    | .totalAmount => { r with grnItemTotalAmount := r.invoiceItemTotalAmount }
  | .grnToInvoice =>
    match k with
    | .description => { r with invoiceItemDescription := r.grnItemDescription }
    | .hsn => { r with invoiceItemHsn := r.grnItemHsn }
    | .quantity => { r with invoiceItemQuantity := r.grnItemQuantity }
    | .unit => { r with invoiceItemUnit := r.grnItemUnit }
    | .unitPrice => { r with invoiceItemUnitPrice := r.grnItemUnitPrice }
    | .subtotal => { r with invoiceItemSubtotal := r.grnItemSubtotal }
    | .cgstRate => { r with invoiceItemCgstRate := r.grnItemCgstRate }
    | .cgstAmount => { r with invoiceItemCgstAmount := r.grnItemCgstAmount }
    | .sgstRate => { r with invoiceItemSgstRate := r.grnItemSgstRate }
    | .sgstAmount => { r with invoiceItemSgstAmount := r.grnItemSgstAmount }
    | .igstRate => { r with invoiceItemIgstRate := r.grnItemIgstRate }
    | .igstAmount => { r with invoiceItemIgstAmount := r.grnItemIgstAmount }
    | .totalTax => { r with invoiceItemTotalTax := r.grnItemTotalTax }
    | .totalAmount => { r with invoiceItemTotalAmount := r.grnItemTotalAmount }

/-- The copy loop of `ManualMatchAPI.post` over the selected field
mappings. -/
def applyFieldCopies (direction : SwapDirection) (mappings : List CopyField)
    (r : InvoiceItemReconciliationRec) : InvoiceItemReconciliationRec :=
  mappings.foldl (copyFieldValue direction) r

/-- The audit note appended by `ManualMatchAPI.post`: previous notes, actor,
timestamp, copy direction, original status and fields touched, then
`.strip()`. -/
def manualMatchNote (oldNotes : Option String) (user timestamp directionStr
    originalStatus : String) (fieldsToSwap : List String) : String :=
  pyStrip ((oldNotes.getD "") ++ "\n" ++ "Manual match performed by " ++ user ++ " on " ++
    timestamp ++ ". " ++ "Copy direction: " ++ directionStr ++ ". " ++ "Original status: " ++
    originalStatus ++ ". " ++ "Fields copied: " ++ String.intercalate ", " fieldsToSwap ++ ". " ++
    "Status changed to perfect_match after manual copy.")

/-- Quantity stanza of `ManualMatchAPI._recalculate_variances`: recompute
`quantity_variance` when both sides are truthy (non-null and nonzero), and
its percentage when additionally the GRN side is nonzero. -/
def recalcQuantityStep (r : InvoiceItemReconciliationRec) : InvoiceItemReconciliationRec :=
  if pyTruthyQ r.invoiceItemQuantity && pyTruthyQ r.grnItemQuantity then
    let qv := safeDecimal r.invoiceItemQuantity - safeDecimal r.grnItemQuantity
    let ra := { r with quantityVariance := some qv }
    if safeDecimal r.grnItemQuantity ≠ 0 then
      { ra with quantityVariancePercentage := some (qv / safeDecimal r.grnItemQuantity * 100) }
    else ra
  else r

/-- Subtotal stanza of `_recalculate_variances`. -/
def recalcSubtotalStep (r : InvoiceItemReconciliationRec) : InvoiceItemReconciliationRec :=
  if pyTruthyQ r.invoiceItemSubtotal && pyTruthyQ r.grnItemSubtotal then
    let sv := safeDecimal r.invoiceItemSubtotal - safeDecimal r.grnItemSubtotal
    let ra := { r with subtotalVariance := some sv }
    if safeDecimal r.grnItemSubtotal ≠ 0 then
      { ra with subtotalVariancePercentage := some (sv / safeDecimal r.grnItemSubtotal * 100) }
    else ra
  else r

/-- Total-amount stanza of `_recalculate_variances`. -/
def recalcTotalAmountStep (r : InvoiceItemReconciliationRec) : InvoiceItemReconciliationRec :=
  if pyTruthyQ r.invoiceItemTotalAmount && pyTruthyQ r.grnItemTotalAmount then
    let tv := safeDecimal r.invoiceItemTotalAmount - safeDecimal r.grnItemTotalAmount
    let ra := { r with totalAmountVariance := some tv }
    if safeDecimal r.grnItemTotalAmount ≠ 0 then
      let tp := some (tv / safeDecimal r.grnItemTotalAmount * 100)
      { ra with totalAmountVariancePercentage := tp }
    else ra
  else r

/-- Unit-price stanza of `_recalculate_variances`. -/
def recalcUnitPriceStep (r : InvoiceItemReconciliationRec) : InvoiceItemReconciliationRec :=
  if pyTruthyQ r.invoiceItemUnitPrice && pyTruthyQ r.grnItemUnitPrice then
    let uv := some (safeDecimal r.invoiceItemUnitPrice - safeDecimal r.grnItemUnitPrice)
    { r with unitRateVariance := uv }
  else r

/-- CGST stanza of `_recalculate_variances`. -/
def recalcCgstStep (r : InvoiceItemReconciliationRec) : InvoiceItemReconciliationRec :=
  if pyTruthyQ r.invoiceItemCgstAmount && pyTruthyQ r.grnItemCgstAmount then
    let cv := some (safeDecimal r.invoiceItemCgstAmount - safeDecimal r.grnItemCgstAmount)
    { r with cgstVariance := cv }
  else r

/-- SGST stanza of `_recalculate_variances`. -/
def recalcSgstStep (r : InvoiceItemReconciliationRec) : InvoiceItemReconciliationRec :=
  if pyTruthyQ r.invoiceItemSgstAmount && pyTruthyQ r.grnItemSgstAmount then
    let sv := some (safeDecimal r.invoiceItemSgstAmount - safeDecimal r.grnItemSgstAmount)
    { r with sgstVariance := sv }
  else r

/-- IGST stanza of `_recalculate_variances`. -/
def recalcIgstStep (r : InvoiceItemReconciliationRec) : InvoiceItemReconciliationRec :=
  if pyTruthyQ r.invoiceItemIgstAmount && pyTruthyQ r.grnItemIgstAmount then
    let iv := some (safeDecimal r.invoiceItemIgstAmount - safeDecimal r.grnItemIgstAmount)
    { r with igstVariance := iv }
  else r

/-- Total-tax stanza of `_recalculate_variances`. -/
def recalcTotalTaxStep (r : InvoiceItemReconciliationRec) : InvoiceItemReconciliationRec :=
  if pyTruthyQ r.invoiceItemTotalTax && pyTruthyQ r.grnItemTotalTax then
    let tv := some (safeDecimal r.invoiceItemTotalTax - safeDecimal r.grnItemTotalTax)
    { r with totalTaxVariance := tv }
  else r

/-- Amount tolerance-flag stanza of `_recalculate_variances` (guarded by the
truthiness of the just-recomputed percentage; `tolerance_percentage_applied or
2.00` is Python truthiness). -/
def recalcAmountToleranceStep (r : InvoiceItemReconciliationRec) : InvoiceItemReconciliationRec :=
  let tolerancePct := if r.tolerancePercentageApplied = 0 then 2 else r.tolerancePercentageApplied
  if pyTruthyQ r.totalAmountVariancePercentage then
    let fl := decide (|safeDecimal r.totalAmountVariancePercentage| ≤ tolerancePct)
    { r with isWithinAmountTolerance := fl }
  else r

/-- Quantity tolerance-flag stanza of `_recalculate_variances`. -/
def recalcQuantityToleranceStep (r : InvoiceItemReconciliationRec) : InvoiceItemReconciliationRec :=
  if pyTruthyQ r.quantityVariancePercentage then
    let qtp := r.quantityTolerancePercentageApplied
    let quantityTolerancePct := if qtp = 0 then 5 else qtp
    let fl := decide (|safeDecimal r.quantityVariancePercentage| ≤ quantityTolerancePct)
    { r with isWithinQuantityTolerance := fl }
  else r

/-- `ManualMatchAPI._recalculate_variances(reconciliation)`: the stanzas
applied in source order to the mutating record. -/
def recalculateVariances (r : InvoiceItemReconciliationRec) : InvoiceItemReconciliationRec :=
  recalcQuantityToleranceStep (recalcAmountToleranceStep (recalcTotalTaxStep (recalcIgstStep
    (recalcSgstStep (recalcCgstStep (recalcUnitPriceStep (recalcTotalAmountStep
      (recalcSubtotalStep (recalcQuantityStep r)))))))))

/-- The per-record body of `ManualMatchAPI.post`: copy the selected fields in
the requested direction, mark the record `perfect_match` / manual / not
auto-matched, append the audit note, recalculate all variances, and run the
model `save` override. -/
def manualMatchRecord (direction : SwapDirection) (fieldsToSwap : List String)
    (user timestamp : String) (r : InvoiceItemReconciliationRec) : InvoiceItemReconciliationRec :=
  let fieldMappings := getFieldMappings fieldsToSwap
  let copied := applyFieldCopies direction fieldMappings r
  let originalMatchStatus := copied.matchStatus
  let updated :=
    { copied with
      matchStatus := "perfect_match"
      manualMatch := true
      isAutoMatched := false
      reconciliationNotes := some (manualMatchNote copied.reconciliationNotes user timestamp
        (swapDirectionString direction) originalMatchStatus fieldsToSwap) }
  invoiceItemReconSave (recalculateVariances updated)

/-- `ManualMatchAPI.post` over the reconciliation records of one invoice:
404 when none exist, 400 (untouched records) when any record already has
`perfect_match` status, otherwise every record is copied and upgraded. -/
def manualMatchPost (direction : SwapDirection) (fieldsToSwap : List String)
    (user timestamp : String) (records : List InvoiceItemReconciliationRec) :
    Except String (List InvoiceItemReconciliationRec) :=
  if records.isEmpty then .error "No reconciliation records found"
  else if records.any (fun r => r.matchStatus == "perfect_match") then
    .error "records already have perfect_match status"
  else .ok (records.map (manualMatchRecord direction fieldsToSwap user timestamp))

/-- The grouping key `f"{grn_number}_{po_number}"` built by
`RuleBasedReconciliationAPI._update_grn_summary_status`. -/
def grnStatusKey (grnNumber poNumber : String) : String :=
  grnNumber ++ "_" ++ poNumber

/-- Split a character list at the LAST occurrence of `sep`; `none` when `sep`
does not occur. -/
def lastSplitChar (sep : Char) : List Char → Option (List Char × List Char)
  | [] => none
  | c :: cs =>
    match lastSplitChar sep cs with
    | some (a, b) => some (c :: a, b)
    | none => if c == sep then some ([], cs) else none

/-- Python `a, b = s.rsplit(sep, 1)`: succeeds with the parts around the last
separator, raises ValueError (here `none`) when the separator is absent and
the single part cannot be unpacked into two names. -/
def rsplitOncePair (sep : Char) (s : String) : Option (String × String) :=
  (lastSplitChar sep s.data).map (fun ab => (String.mk ab.1, String.mk ab.2))

/-- Append a match status under a key in the insertion-ordered
`grn_status_map` dictionary. -/
def addStatusToMap (m : List (String × List String)) (key status : String) :
    List (String × List String) :=
  if m.any (fun kv => kv.1 == key) then
    m.map (fun kv => if kv.1 == key then (kv.1, kv.2 ++ [status]) else kv)
  else m ++ [(key, [status])]

/-- The `grn_status_map` grouping loop of `_update_grn_summary_status`. -/
def buildGrnStatusMap (recons : List InvoiceGrnReconciliationRec) : List (String × List String) :=
  recons.foldl (fun m r => addStatusToMap m (grnStatusKey r.grnNumber r.poNumber) r.matchStatus) []

/-- The per-key update loop of `_update_grn_summary_status`: each key is
parsed with `key.rsplit('/', 1)` (sic — the keys were built with an
underscore separator); an unpacking failure is a ValueError that escapes to
the function-level exception handler, modelled as `none`. A parsed key marks
the uniquely matching GRN summary reconciled with status `matched` (all
linked statuses perfect) or `variance` (some perfect or partial); a missing
summary is skipped. -/
def updateGrnSummaryLoop (summaries : List GrnSummary) (updated : ℕ) :
    List (String × List String) → Option (List GrnSummary × ℕ)
  | [] => some (summaries, updated)
  | (key, statuses) :: rest =>
    match rsplitOncePair '/' key with
    | none => none
    | some (grnNumber, poNumber) =>
      let status :=
        if statuses.all (fun s => s == "perfect_match") then some "matched"
        else if statuses.any (fun s => s == "perfect_match" || s == "partial_match") then
          some "variance"
        else none
      match status with
      | none => updateGrnSummaryLoop summaries updated rest
      | some st =>
        let hit := fun (g : GrnSummary) =>
          g.grnNumber == some grnNumber && g.poNumber == some poNumber
        if (summaries.filter hit).length == 1 then
          updateGrnSummaryLoop
            (summaries.map (fun g =>
              if hit g then { g with isReconciled := true, reconciliationStatus := some st }
              else g))
            (updated + 1) rest
        else updateGrnSummaryLoop summaries updated rest

/-- The outcome of `_update_grn_summary_status` visible to its caller. -/
structure GrnStatusUpdateResult where
  success : Bool
  totalUpdated : ℕ
  summaries : List GrnSummary
deriving Repr, DecidableEq

/-- `RuleBasedReconciliationAPI._update_grn_summary_status` from
document_processing/views/reconciliation/manual_match_views.py: restrict to
perfect/partial header records, group their statuses by
`f"{grn_number}_{po_number}"`, then run the update loop; any exception inside
the loop is caught at function level and reported as a failure with zero
summaries updated. -/
def updateGrnSummaryStatus (summaries : List GrnSummary)
    (recons : List InvoiceGrnReconciliationRec) : GrnStatusUpdateResult :=
  let reconciledInvoices := recons.filter (fun r =>
    r.matchStatus == "perfect_match" || r.matchStatus == "partial_match")
  let grnStatusMap := buildGrnStatusMap reconciledInvoices
  match updateGrnSummaryLoop summaries 0 grnStatusMap with
  | some sn => { success := true, totalUpdated := sn.2, summaries := sn.1 }
  | none => { success := false, totalUpdated := 0, summaries := summaries }

/-- `InvoiceGrnReconciliation.objects.create` under the
`unique_together = [['invoice_data_id', 'po_number']]` constraint: appending
a row whose key already exists raises IntegrityError (modelled as `none`). -/
def headerObjectsCreate (store : List InvoiceGrnReconciliationRec)
    (r : InvoiceGrnReconciliationRec) : Option (List InvoiceGrnReconciliationRec) :=
  if store.any (fun x => x.invoiceDataId == r.invoiceDataId && x.poNumber == r.poNumber) then none
  else some (store ++ [r])

/-- `InvoiceItemReconciliation.objects.create` under the
`unique_together = [['invoice_item_data_id', 'reconciliation_batch_id']]`
constraint. -/
def itemObjectsCreate (store : List InvoiceItemReconciliationRec)
    (r : InvoiceItemReconciliationRec) : Option (List InvoiceItemReconciliationRec) :=
  if store.any (fun x =>
      x.invoiceItemDataId == r.invoiceItemDataId &&
      x.reconciliationBatchId == r.reconciliationBatchId) then none
  else some (store ++ [r])

/-- One iteration of the batch loop of
`RuleBasedReconciliationProcessor.process_batch_async` for a single invoice:
find candidates, evaluate and persist; the surrounding
`try/except` counts any per-record exception (here: the IntegrityError of a
duplicate `(invoice_data_id, po_number)` create) in the error tally and
leaves the store unchanged. -/
def processSingleInvoiceStep (tolerancePercentage : ℚ) (dateToleranceDays : ℤ)
    (grnTable : List GrnSummary) (store : List InvoiceGrnReconciliationRec)
    (errors : ℕ) (invoice : InvoiceData) : List InvoiceGrnReconciliationRec × ℕ :=
  let grnMatches := findGrnMatchesHierarchical grnTable invoice
  let record :=
    match evaluateGrnMatches tolerancePercentage dateToleranceDays invoice grnMatches with
    | some e => createReconciliationRecord tolerancePercentage invoice e
    | none => createNoMatchRecord tolerancePercentage invoice
  match headerObjectsCreate store record with
  | some newStore => (newStore, errors)
  | none => (store, errors + 1)

/-! Example records used to instantiate theorems at concrete inputs. -/

/-- An invoice with every nullable field absent. -/
def exInvoice0 : InvoiceData :=
  { id := 1
    poNumber := none
    grnNumber := none
    invoiceNumber := none
    vendorName := none
    vendorGst := none
    invoiceDate := none
    invoiceValueWithoutGst := none
    cgstAmount := none
    sgstAmount := none
    igstAmount := none
    invoiceTotalPostGst := none }

/-- A GRN summary with every nullable field absent. -/
def exGrnSummary0 : GrnSummary :=
  { poNumber := none
    grnNumber := none
    sellerInvoiceNumber := none
    supplierName := none
    pickupGstin := none
    grnCreatedDate := none
    totalSubtotal := none
    totalCgstAmount := none
    totalSgstAmount := none
    totalIgstAmount := none
    totalAmount := none
    totalItemsCount := 0
    isReconciled := false
    reconciliationStatus := none }

/-- An invoice line item with every nullable field absent. -/
def exInvoiceItem0 : InvoiceItemData :=
  { id := 1
    invoiceDataId := 1
    itemSequence := 1
    poNumber := none
    invoiceNumber := none
    vendorName := none
    hsnCode := none
    itemDescription := none
    unitOfMeasurement := none
    quantity := none
    unitPrice := none
    invoiceValueItemWise := none
    cgstRate := none
    cgstAmount := none
    sgstRate := none
    sgstAmount := none
    igstRate := none
    igstAmount := none
    totalTaxAmount := none
    itemTotalAmount := none }

/-- A receipt line item with every nullable field absent. -/
def exItemWiseGrn0 : ItemWiseGrn :=
  { id := 1
    sNo := 1
    poNo := none
    grnNo := none
    sellerInvoiceNo := none
    hsnNo := none
    itemName := none
    unit := none
    receivedQty := none
    price := none
    subtotal := none
    total := none
    cgstTax := none
    cgstTaxAmount := none
    sgstTax := none
    sgstTaxAmount := none
    igstTax := none
    igstTaxAmount := none
    taxAmount := none }

/-! Claim C1 — the shared variance calculation. -/

/-- The variance contract satisfied by every amount/quantity/price criterion:
signed variance, the percentage rule (with the amended
`|variance| / |receipt_value| * 100` magnitude form), the fixed zero-receipt
convention, the boundary-inclusive tolerance flag, and the tiered 15-point
score. -/
def varianceContract (tol invVal grnVal variance pct : ℚ) (withinTol : Bool)
    (score : ℕ) : Prop :=
  variance = invVal - grnVal ∧
  (grnVal ≠ 0 → pct = |variance| / |grnVal| * 100) ∧
  (grnVal = 0 → variance = 0 → pct = 0) ∧
  (grnVal = 0 → variance ≠ 0 → pct = 100) ∧
  (withinTol = true ↔ pct ≤ tol) ∧
  score = (if pct ≤ tol then 15 else if pct ≤ tol * 2 then 10 else if pct ≤ tol * 5 then 5 else 0)

/-- Core fact: the literal Python computation satisfies `varianceContract`. -/
theorem varianceParts (tol a b : ℚ) :
    varianceContract tol a b (a - b)
      (if b ≠ 0 then |(a - b) / b * 100| else if a - b = 0 then 0 else 100)
      (decide ((if b ≠ 0 then |(a - b) / b * 100| else if a - b = 0 then 0 else 100) ≤ tol))
      (tieredScore tol
        (decide ((if b ≠ 0 then |(a - b) / b * 100| else if a - b = 0 then 0 else 100) ≤ tol))
        (if b ≠ 0 then |(a - b) / b * 100| else if a - b = 0 then 0 else 100)) := by
  unfold varianceContract tieredScore
  refine ⟨rfl, ?_, ?_, ?_, by simp, ?_⟩
  · intro hb
    rw [if_pos hb, abs_mul, abs_div]
    norm_num
  · intro hb h0
    subst hb
    rw [sub_zero] at h0
    simp [h0]
  · intro hb h0
    subst hb
    rw [sub_zero] at h0
    simp [h0]
  · by_cases h : (if b ≠ 0 then |(a - b) / b * 100| else if a - b = 0 then 0 else 100) ≤ tol <;>
      simp [h]

/-- C1 (corrected, counterexample): at `invoice_value = 0`,
`receipt_value = -100` the code computes `variance_pct = 100`, while the
claim formula `|variance| / receipt_value * 100` yields `-100`; the claim is
false as stated for negative receipt values. -/
theorem c1_counterexample :
    (calculateVariance 2 (some 0) (some (-100))).variancePct = 100 ∧
    |safeDecimal (some 0) - safeDecimal (some (-100 : ℚ))| / safeDecimal (some (-100)) * 100 = -100 ∧
    (calculateVariance 2 (some 0) (some (-100))).variancePct ≠
      |safeDecimal (some 0) - safeDecimal (some (-100 : ℚ))| / safeDecimal (some (-100)) * 100 := by
  refine ⟨?_, ?_, ?_⟩ <;> norm_num [calculateVariance, safeDecimal]

/-- C1 (amended): for every optional invoice/receipt value pair and every
tolerance, the header `calculate_variance` (with the header tier driven by
the total variance) and the line quantity / unit price / line total
evaluations all compute the signed variance `invoice - receipt` with missing
values as 0, the percentage `|variance| / |receipt_value| * 100` (magnitude,
the amendment) for nonzero receipt values, the fixed 0/100 convention at
receipt 0, the boundary-inclusive tolerance flag, and the tiered
15/10/5/0 score. -/
theorem c1_variance_calculation (tol : ℚ) (iv gv : Option ℚ)
    (ii : InvoiceItemData) (gi : ItemWiseGrn) (inv : InvoiceData) (g : GrnSummary) :
    varianceContract tol (safeDecimal iv) (safeDecimal gv)
      (calculateVariance tol iv gv).varianceAmount
      (calculateVariance tol iv gv).variancePct
      (calculateVariance tol iv gv).withinTolerance
      (tieredScore tol (calculateVariance tol iv gv).withinTolerance
        (calculateVariance tol iv gv).variancePct) ∧
    varianceContract tol (safeDecimal ii.quantity) (safeDecimal gi.receivedQty)
      (evaluateQuantityMatch tol ii gi).variance
      (evaluateQuantityMatch tol ii gi).variancePct
      (evaluateQuantityMatch tol ii gi).withinTolerance
      (evaluateQuantityMatch tol ii gi).score ∧
    varianceContract tol (safeDecimal ii.unitPrice) (safeDecimal gi.price)
      (evaluatePriceMatch tol ii gi).variance
      (evaluatePriceMatch tol ii gi).variancePct
      (evaluatePriceMatch tol ii gi).withinTolerance
      (evaluatePriceMatch tol ii gi).score ∧
    varianceContract tol (safeDecimal ii.itemTotalAmount) (safeDecimal gi.total)
      (evaluateAmountMatch tol ii gi).variance
      (evaluateAmountMatch tol ii gi).variancePct
      (evaluateAmountMatch tol ii gi).withinTolerance
      (evaluateAmountMatch tol ii gi).score ∧
    varianceContract tol (safeDecimal inv.invoiceTotalPostGst) (safeDecimal g.totalAmount)
      (evaluateAmountTolerance tol inv g).totalVariance.varianceAmount
      (evaluateAmountTolerance tol inv g).totalVariance.variancePct
      (evaluateAmountTolerance tol inv g).withinTolerance
      (evaluateAmountTolerance tol inv g).score := by
  refine ⟨?_, ?_, ?_, ?_, ?_⟩ <;>
    exact varianceParts tol _ _

/-- C1 witness: the amended contract applied at the concrete pair
`(105, 100)` with 2% tolerance yields variance 5, percentage 5 and a failed
tolerance flag. -/
theorem c1_variance_calculation_witness :
    (calculateVariance 2 (some 105) (some 100)).varianceAmount = 5 ∧
    (calculateVariance 2 (some 105) (some 100)).variancePct = 5 ∧
    (calculateVariance 2 (some 105) (some 100)).withinTolerance = false := by
  obtain ⟨⟨hv, hp, _, _, hw, _⟩, _⟩ :=
    c1_variance_calculation 2 (some 105) (some 100) exInvoiceItem0 exItemWiseGrn0
      exInvoice0 exGrnSummary0
  have hb : safeDecimal (some (100 : ℚ)) ≠ 0 := by norm_num [safeDecimal]
  have hv5 : (calculateVariance 2 (some 105) (some 100)).varianceAmount = 5 := by
    rw [hv]; norm_num [safeDecimal]
  have hp5 : (calculateVariance 2 (some 105) (some 100)).variancePct = 5 := by
    rw [hp hb, hv5]; norm_num [safeDecimal]
  refine ⟨hv5, hp5, ?_⟩
  rw [Bool.eq_false_iff]
  intro htrue
  have h2 := hw.mp htrue
  rw [hp5] at h2
  norm_num at h2

/-! Claim C10 — vacuous date validation on missing dates. -/

/-- C10 (confirmed): when the invoice date or the GRN creation date is
missing, the header date criterion passes vacuously — the `date_valid` flag
is true and the full 10 date points are in the score; the day-tolerance
window on `grn_created_date - invoice_date` is applied only when both dates
are present. -/
theorem c10_date_validation_vacuous (tol : ℚ) (dt : ℤ) (inv : InvoiceData) (g : GrnSummary) :
    ((inv.invoiceDate = none ∨ g.grnCreatedDate = none) →
      evaluateDateValidation dt inv g = true ∧
      (evaluateSingleMatch tol dt inv g).dateValid = true ∧
      (evaluateSingleMatch tol dt inv g).matchScore =
        (if (evaluateSingleMatch tol dt inv g).poMatch then 25 else 0) +
        (if (evaluateSingleMatch tol dt inv g).invoiceMatch then 20 else 0) +
        (if (evaluateSingleMatch tol dt inv g).grnMatch then 15 else 0) +
        (if (evaluateSingleMatch tol dt inv g).vendorMatch then 15 else 0) + 10 +
        (evaluateSingleMatch tol dt inv g).amountScore) ∧
    (∀ di gd, inv.invoiceDate = some di → g.grnCreatedDate = some gd →
      (evaluateDateValidation dt inv g = true ↔ -dt ≤ gd - di ∧ gd - di ≤ dt)) := by
  constructor
  · intro hmiss
    have hd : evaluateDateValidation dt inv g = true := by
      unfold evaluateDateValidation
      rcases hmiss with h | h
      · rw [h]
      · rw [h]; cases inv.invoiceDate <;> rfl
    refine ⟨hd, ?_, ?_⟩
    · show evaluateDateValidation dt inv g = true
      exact hd
    · show (if strFieldMatch inv.poNumber g.poNumber then 25 else 0) +
        (if strFieldMatch inv.invoiceNumber g.sellerInvoiceNumber then 20 else 0) +
        (if strFieldMatch inv.grnNumber g.grnNumber then 15 else 0) +
        (if evaluateVendorMatch inv g then 15 else 0) +
        (if evaluateDateValidation dt inv g then 10 else 0) +
        (evaluateAmountTolerance tol inv g).score = _
      rw [hd]
      rfl
  · intro di gd hdi hgd
    unfold evaluateDateValidation
    rw [hdi, hgd]
    simp

/-- C10 witness: with both dates missing the date criterion passes. -/
theorem c10_date_validation_witness :
    evaluateDateValidation 30 exInvoice0 exGrnSummary0 = true ∧
    (evaluateSingleMatch 2 30 exInvoice0 exGrnSummary0).dateValid = true := by
  have h := (c10_date_validation_vacuous 2 30 exInvoice0 exGrnSummary0).1 (Or.inl rfl)
  exact ⟨h.1, h.2.1⟩

/-! Claim C4 — ordered fallback hierarchy with short-circuit. -/

/-- A similarity function that rates every pair 0 (used to instantiate
theorems at concrete inputs). -/
def simZero : String → String → ℚ := fun _ _ => 0

/-- C4 (confirmed): both finders equal the specification-side ordered
strategy list evaluated with skip-on-missing-fields and stop-at-first-
non-empty semantics, and a missing PO number short-circuits the line-level
finder to the empty candidate set. -/
theorem c4_hierarchical_finder (grnTable : List GrnSummary) (invoice : InvoiceData)
    (sim : String → String → ℚ) (grnItems : List ItemWiseGrn)
    (invoiceItem : InvoiceItemData) :
    findGrnMatchesHierarchical grnTable invoice = specHeaderHierarchy grnTable invoice ∧
    findGrnItemMatches sim grnItems invoiceItem = specLineHierarchy sim grnItems invoiceItem ∧
    (pyTruthyStr invoiceItem.poNumber = false →
      findGrnItemMatches sim grnItems invoiceItem = []) := by
  refine ⟨?_, ?_, ?_⟩
  · simp only [findGrnMatchesHierarchical, specHeaderHierarchy, firstNonEmptyStrategy,
      Bool.and_assoc]
  · simp only [findGrnItemMatches, specLineHierarchy, firstNonEmptyStrategy,
      Bool.and_assoc, Bool.true_and]
  · intro h
    simp [findGrnItemMatches, h]

/-- C4 witness: an invoice item without a PO number yields no candidates. -/
theorem c4_hierarchical_finder_witness :
    findGrnItemMatches simZero [exItemWiseGrn0] exInvoiceItem0 = [] :=
  (c4_hierarchical_finder [] exInvoice0 simZero [exItemWiseGrn0] exInvoiceItem0).2.2 rfl

/-! Claim C3 — best-candidate selection and the score-to-status mapping. -/

/-- Reference recursion for the strictly-greater best-match accumulator:
starting from current best `b`, a later candidate replaces it only with a
strictly higher score. -/
def bestOfHeader (tol : ℚ) (dt : ℤ) (inv : InvoiceData) (b : HeaderEvaluation) :
    List GrnSummary → HeaderEvaluation
  | [] => b
  | g :: gs =>
    if (evaluateSingleMatch tol dt inv g).matchScore > b.matchScore then
      bestOfHeader tol dt inv (evaluateSingleMatch tol dt inv g) gs
    else
      bestOfHeader tol dt inv b gs

/-- The evaluator loop started on a current best computes `bestOfHeader`. -/
theorem evaluateGrnMatchesLoop_some (tol : ℚ) (dt : ℤ) (inv : InvoiceData) :
    ∀ (l : List GrnSummary) (b : HeaderEvaluation),
      evaluateGrnMatchesLoop tol dt inv l (some b) (b.matchScore : ℤ) =
        some (bestOfHeader tol dt inv b l) := by
  intro l
  induction l with
  | nil => intro b; rfl
  | cons g gs ih =>
    intro b
    by_cases h : (evaluateSingleMatch tol dt inv g).matchScore > b.matchScore
    · have hz : ((evaluateSingleMatch tol dt inv g).matchScore : ℤ) > (b.matchScore : ℤ) := by
        exact_mod_cast h
      simp only [evaluateGrnMatchesLoop, bestOfHeader, if_pos h, if_pos hz]
      exact ih _
    · have hz : ¬ ((evaluateSingleMatch tol dt inv g).matchScore : ℤ) > (b.matchScore : ℤ) := by
        exact_mod_cast h
      simp only [evaluateGrnMatchesLoop, bestOfHeader, if_neg h, if_neg hz]
      exact ih b

/-- On a non-empty candidate list the evaluator returns the best of the tail
seeded with the head evaluation. -/
theorem evaluateGrnMatches_cons (tol : ℚ) (dt : ℤ) (inv : InvoiceData)
    (g : GrnSummary) (gs : List GrnSummary) :
    evaluateGrnMatches tol dt inv (g :: gs) =
      some (bestOfHeader tol dt inv (evaluateSingleMatch tol dt inv g) gs) := by
  have h : ((evaluateSingleMatch tol dt inv g).matchScore : ℤ) > -1 := by
    have := Int.ofNat_nonneg (evaluateSingleMatch tol dt inv g).matchScore
    omega
  simp only [evaluateGrnMatches, evaluateGrnMatchesLoop, if_pos h]
  exact evaluateGrnMatchesLoop_some tol dt inv gs _

/-- Structure of `bestOfHeader`: either the seed stays best (everything in
the list scores at most the seed), or the result is the evaluation of a list
element that strictly beats the seed and every earlier element, with nothing
later beating it. -/
theorem bestOfHeader_spec (tol : ℚ) (dt : ℤ) (inv : InvoiceData) :
    ∀ (l : List GrnSummary) (b : HeaderEvaluation),
      (bestOfHeader tol dt inv b l = b ∧
        ∀ g ∈ l, (evaluateSingleMatch tol dt inv g).matchScore ≤ b.matchScore) ∨
      (∃ pre g post, l = pre ++ g :: post ∧
        bestOfHeader tol dt inv b l = evaluateSingleMatch tol dt inv g ∧
        b.matchScore < (evaluateSingleMatch tol dt inv g).matchScore ∧
        (∀ x ∈ pre, (evaluateSingleMatch tol dt inv x).matchScore <
          (evaluateSingleMatch tol dt inv g).matchScore) ∧
        (∀ x ∈ post, (evaluateSingleMatch tol dt inv x).matchScore ≤
          (evaluateSingleMatch tol dt inv g).matchScore)) := by
  intro l
  induction l with
  | nil =>
    intro b
    left
    exact ⟨rfl, by simp⟩
  | cons h t ih =>
    intro b
    by_cases hgt : (evaluateSingleMatch tol dt inv h).matchScore > b.matchScore
    · have hstep : bestOfHeader tol dt inv b (h :: t) =
        bestOfHeader tol dt inv (evaluateSingleMatch tol dt inv h) t := by
        simp only [bestOfHeader, if_pos hgt]
      rcases ih (evaluateSingleMatch tol dt inv h) with ⟨heq, hall⟩ | ⟨pre, g, post, hsplit, heq, hlt, hpre, hpost⟩
      · right
        refine ⟨[], h, t, by simp, by rw [hstep, heq], hgt, by simp, hall⟩
      · right
        refine ⟨h :: pre, g, post, by simp [hsplit], by rw [hstep, heq], lt_trans hgt hlt, ?_, hpost⟩
        intro x hx
        rcases List.mem_cons.mp hx with hx | hx
        · subst hx; exact hlt
        · exact hpre x hx
    · have hstep : bestOfHeader tol dt inv b (h :: t) = bestOfHeader tol dt inv b t := by
        simp only [bestOfHeader, if_neg hgt]
      rcases ih b with ⟨heq, hall⟩ | ⟨pre, g, post, hsplit, heq, hlt, hpre, hpost⟩
      · left
        refine ⟨by rw [hstep, heq], ?_⟩
        intro x hx
        rcases List.mem_cons.mp hx with hx | hx
        · subst hx; omega
        · exact hall x hx
      · right
        refine ⟨h :: pre, g, post, by simp [hsplit], by rw [hstep, heq], hlt, ?_, hpost⟩
        intro x hx
        rcases List.mem_cons.mp hx with hx | hx
        · subst hx; omega
        · exact hpre x hx

/-- The score-to-status mapping of `_evaluate_single_match`, factored over
the score and the three criterion flags. -/
def headerStatusOf (score : ℕ) (amountTol vendorM dateV : Bool) : String :=
  if score ≥ 85 then "perfect_match"
  else if score ≥ 60 then "partial_match"
  else if !amountTol then "amount_mismatch"
  else if !vendorM then "vendor_mismatch"
  else if !dateV then "date_mismatch"
  else "partial_match"

/-- Case analysis of the status mapping. -/
theorem headerStatusOf_cases (score : ℕ) (a v d : Bool) :
    (score ≥ 85 → headerStatusOf score a v d = "perfect_match") ∧
    (score < 85 → score ≥ 60 → headerStatusOf score a v d = "partial_match") ∧
    (score < 60 → a = false → headerStatusOf score a v d = "amount_mismatch") ∧
    (score < 60 → a = true → v = false → headerStatusOf score a v d = "vendor_mismatch") ∧
    (score < 60 → a = true → v = true → d = false →
      headerStatusOf score a v d = "date_mismatch") ∧
    (score < 60 → a = true → v = true → d = true →
      headerStatusOf score a v d = "partial_match") := by
  unfold headerStatusOf
  refine ⟨?_, ?_, ?_, ?_, ?_, ?_⟩
  · intro h; rw [if_pos h]
  · intro h85 h60; rw [if_neg (by omega), if_pos h60]
  · intro h60 ha; rw [if_neg (by omega), if_neg (by omega), ha]; rfl
  · intro h60 ha hv; rw [if_neg (by omega), if_neg (by omega), ha, hv]; rfl
  · intro h60 ha hv hd; rw [if_neg (by omega), if_neg (by omega), ha, hv, hd]; rfl
  · intro h60 ha hv hd; rw [if_neg (by omega), if_neg (by omega), ha, hv, hd]; rfl

/-- C3 (confirmed): on a non-empty candidate set the evaluator returns the
evaluation of a candidate that strictly beats every earlier candidate and is
not beaten by any candidate (strictly highest score, first evaluated kept on
ties); and each evaluation's `match_status` follows the 85/60 bands with the
fixed amount → vendor → date mismatch precedence, defaulting to
`partial_match`. -/
theorem c3_best_match_selection_and_status (tol : ℚ) (dt : ℤ) (inv : InvoiceData)
    (grns : List GrnSummary) (grn : GrnSummary) :
    (grns ≠ [] →
      ∃ pre g post, grns = pre ++ g :: post ∧
        evaluateGrnMatches tol dt inv grns = some (evaluateSingleMatch tol dt inv g) ∧
        (∀ x ∈ pre, (evaluateSingleMatch tol dt inv x).matchScore <
          (evaluateSingleMatch tol dt inv g).matchScore) ∧
        (∀ x ∈ grns, (evaluateSingleMatch tol dt inv x).matchScore ≤
          (evaluateSingleMatch tol dt inv g).matchScore)) ∧
    (((evaluateSingleMatch tol dt inv grn).matchScore ≥ 85 →
        (evaluateSingleMatch tol dt inv grn).matchStatus = "perfect_match") ∧
      ((evaluateSingleMatch tol dt inv grn).matchScore < 85 →
        (evaluateSingleMatch tol dt inv grn).matchScore ≥ 60 →
        (evaluateSingleMatch tol dt inv grn).matchStatus = "partial_match") ∧
      ((evaluateSingleMatch tol dt inv grn).matchScore < 60 →
        (evaluateSingleMatch tol dt inv grn).amountTolerance = false →
        (evaluateSingleMatch tol dt inv grn).matchStatus = "amount_mismatch") ∧
      ((evaluateSingleMatch tol dt inv grn).matchScore < 60 →
        (evaluateSingleMatch tol dt inv grn).amountTolerance = true →
        (evaluateSingleMatch tol dt inv grn).vendorMatch = false →
        (evaluateSingleMatch tol dt inv grn).matchStatus = "vendor_mismatch") ∧
      ((evaluateSingleMatch tol dt inv grn).matchScore < 60 →
        (evaluateSingleMatch tol dt inv grn).amountTolerance = true →
        (evaluateSingleMatch tol dt inv grn).vendorMatch = true →
        (evaluateSingleMatch tol dt inv grn).dateValid = false →
        (evaluateSingleMatch tol dt inv grn).matchStatus = "date_mismatch") ∧
      ((evaluateSingleMatch tol dt inv grn).matchScore < 60 →
        (evaluateSingleMatch tol dt inv grn).amountTolerance = true →
        (evaluateSingleMatch tol dt inv grn).vendorMatch = true →
        (evaluateSingleMatch tol dt inv grn).dateValid = true →
        (evaluateSingleMatch tol dt inv grn).matchStatus = "partial_match")) := by
  constructor
  · intro hne
    rcases grns with _ | ⟨g0, gs⟩
    · exact absurd rfl hne
    rcases bestOfHeader_spec tol dt inv gs (evaluateSingleMatch tol dt inv g0) with
      ⟨heq, hall⟩ | ⟨pre, g, post, hsplit, heq, hlt, hpre, hpost⟩
    · refine ⟨[], g0, gs, by simp, ?_, by simp, ?_⟩
      · rw [evaluateGrnMatches_cons, heq]
      · intro x hx
        rcases List.mem_cons.mp hx with hx | hx
        · subst hx; exact le_refl _
        · exact hall x hx
    · refine ⟨g0 :: pre, g, post, by simp [hsplit], ?_, ?_, ?_⟩
      · rw [evaluateGrnMatches_cons, heq]
      · intro x hx
        rcases List.mem_cons.mp hx with hx | hx
        · subst hx; exact hlt
        · exact hpre x hx
      · intro x hx
        rcases List.mem_cons.mp hx with hx | hx
        · subst hx; omega
        · rw [hsplit] at hx
          rcases List.mem_append.mp hx with hx | hx
          · have := hpre x hx; omega
          · rcases List.mem_cons.mp hx with hx | hx
            · subst hx; exact le_refl _
            · exact hpost x hx
  · have hst : (evaluateSingleMatch tol dt inv grn).matchStatus =
      headerStatusOf (evaluateSingleMatch tol dt inv grn).matchScore
        (evaluateSingleMatch tol dt inv grn).amountTolerance
        (evaluateSingleMatch tol dt inv grn).vendorMatch
        (evaluateSingleMatch tol dt inv grn).dateValid := rfl
    rw [hst]
    exact headerStatusOf_cases _ _ _ _

/-- C3 witness: on the singleton candidate list the evaluator selects that
candidate, and its concrete evaluation (score 25, amount within tolerance,
vendor criterion failed) maps to `vendor_mismatch` through the precedence
clause of the theorem. -/
theorem c3_best_match_selection_witness :
    evaluateGrnMatches 2 30 exInvoice0 [exGrnSummary0] ≠ none ∧
    (evaluateSingleMatch 2 30 exInvoice0 exGrnSummary0).matchStatus = "vendor_mismatch" := by
  have h := c3_best_match_selection_and_status 2 30 exInvoice0 [exGrnSummary0] exGrnSummary0
  obtain ⟨pre, g, post, hsplit, heq, _, _⟩ := h.1 (by simp)
  have hscore : (evaluateSingleMatch 2 30 exInvoice0 exGrnSummary0).matchScore = 25 := by
    norm_num [evaluateSingleMatch, strFieldMatch, evaluateVendorMatch, evaluateDateValidation,
      evaluateAmountTolerance, calculateVariance, tieredScore, safeDecimal, exInvoice0,
      exGrnSummary0]
  have htol : (evaluateSingleMatch 2 30 exInvoice0 exGrnSummary0).amountTolerance = true := by
    norm_num [evaluateSingleMatch, strFieldMatch, evaluateVendorMatch, evaluateDateValidation,
      evaluateAmountTolerance, calculateVariance, tieredScore, safeDecimal, exInvoice0,
      exGrnSummary0]
  have hvm : (evaluateSingleMatch 2 30 exInvoice0 exGrnSummary0).vendorMatch = false := by
    norm_num [evaluateSingleMatch, strFieldMatch, evaluateVendorMatch, evaluateDateValidation,
      evaluateAmountTolerance, calculateVariance, tieredScore, safeDecimal, exInvoice0,
      exGrnSummary0]
  refine ⟨by rw [heq]; simp, ?_⟩
  exact h.2.2.2.2.1 (by omega) htol hvm

/-! Claim C2 — score bounds. -/

/-- The tiered criterion score never exceeds its 15-point weight. -/
theorem tieredScore_le_15 (tol : ℚ) (w : Bool) (p : ℚ) : tieredScore tol w p ≤ 15 := by
  unfold tieredScore
  split_ifs <;> omega

/-- Bound for the weighted header sum. -/
theorem headerWeightedSum_le (b1 b2 b3 b4 b5 : Bool) (s : ℕ) (hs : s ≤ 15) :
    (if b1 then 25 else 0) + (if b2 then 20 else 0) + (if b3 then 15 else 0) +
      (if b4 then 15 else 0) + (if b5 then 10 else 0) + s ≤ 100 := by
  cases b1 <;> cases b2 <;> cases b3 <;> cases b4 <;> cases b5 <;> simp <;> omega

/-- Bound for the weighted line sum (which totals 115, not 100). -/
theorem itemWeightedSum_bounds (b1 b2 b3 : Bool) (d q p a : ℤ) (hd0 : 0 ≤ d) (hd : d ≤ 20)
    (hq0 : 0 ≤ q) (hq : q ≤ 15) (hp0 : 0 ≤ p) (hp : p ≤ 15) (ha0 : 0 ≤ a) (ha : a ≤ 15) :
    0 ≤ (if b1 then 25 else 0) + (if b2 then 15 else 0) + d + q + p + a +
      (if b3 then 10 else 0) ∧
    (if b1 then 25 else 0) + (if b2 then 15 else 0) + d + q + p + a +
      (if b3 then 10 else 0) ≤ 115 := by
  cases b1 <;> cases b2 <;> cases b3 <;> simp <;> omega

/-- The description similarity fed to the line score stays in `[0, 1]`
whenever the underlying ratio does. -/
theorem calcDescriptionSimilarity_bounds (sim : String → String → ℚ) (d1 d2 : Option String)
    (hsim : ∀ a b, 0 ≤ sim a b ∧ sim a b ≤ 1) :
    0 ≤ calcDescriptionSimilarity sim d1 d2 ∧ calcDescriptionSimilarity sim d1 d2 ≤ 1 := by
  unfold calcDescriptionSimilarity
  cases d1 with
  | none => norm_num
  | some a =>
    cases d2 with
    | none => norm_num
    | some b =>
      by_cases he : a.isEmpty || b.isEmpty
      · simp [he]
      · simp only [he, if_false]
        exact hsim a b

/-- An invoice line item on which every line criterion scores full points. -/
def exInvoiceItemFull : InvoiceItemData :=
  { exInvoiceItem0 with
    poNumber := some "PO1"
    invoiceNumber := some "INV1"
    hsnCode := some "H1"
    itemDescription := some "WIDGET"
    unitOfMeasurement := some "PCS"
    quantity := some 10
    unitPrice := some 5
    itemTotalAmount := some 50 }

/-- The receipt line item identical to `exInvoiceItemFull` on every compared
field. -/
def exItemWiseGrnFull : ItemWiseGrn :=
  { exItemWiseGrn0 with
    poNo := some "PO1"
    sellerInvoiceNo := some "INV1"
    hsnNo := some "H1"
    itemName := some "WIDGET"
    unit := some "PCS"
    receivedQty := some 10
    price := some 5
    total := some 50 }

/-- The similarity function that rates every pair 1; this is the value
`difflib.SequenceMatcher.ratio()` takes on identical cleaned descriptions. -/
def simOne : String → String → ℚ := fun _ _ => 1

/-- C2 (corrected, counterexample): the line criterion weights total
25+15+20+15+15+15+10 = 115, so a line pair matching on every criterion
scores 115 — outside the claimed `[0, 100]` — and its stored normalized
score is 1.15 — outside the claimed `[0, 1]`. -/
theorem c2_counterexample :
    (evaluateSingleItemMatch simOne 2 exInvoiceItemFull exItemWiseGrnFull).matchScore = 115 ∧
    ¬ (evaluateSingleItemMatch simOne 2 exInvoiceItemFull exItemWiseGrnFull).matchScore ≤ 100 ∧
    (createItemReconciliationRecord 2 "BATCH1" exInvoiceItemFull
      (evaluateSingleItemMatch simOne 2 exInvoiceItemFull exItemWiseGrnFull)).matchScore =
      115 / 100 ∧
    ¬ (createItemReconciliationRecord 2 "BATCH1" exInvoiceItemFull
      (evaluateSingleItemMatch simOne 2 exInvoiceItemFull exItemWiseGrnFull)).matchScore ≤ 1 := by
  have hs : (evaluateSingleItemMatch simOne 2 exInvoiceItemFull exItemWiseGrnFull).matchScore
      = 115 := by
    norm_num [evaluateSingleItemMatch, strFieldMatch, checkTaxRateMatch,
      calcDescriptionSimilarity, pyInt, evaluateQuantityMatch, evaluatePriceMatch,
      evaluateAmountMatch, tieredScore, safeDecimal, pyTruthyQ, simOne, exInvoiceItemFull,
      exItemWiseGrnFull, exInvoiceItem0, exItemWiseGrn0,
      (by decide : ("H1" : String).isEmpty = false),
      (by decide : ("WIDGET" : String).isEmpty = false),
      (by decide : ("PCS" : String).isEmpty = false), Int.floor_ofNat]
  have hrec : (createItemReconciliationRecord 2 "BATCH1" exInvoiceItemFull
      (evaluateSingleItemMatch simOne 2 exInvoiceItemFull exItemWiseGrnFull)).matchScore =
      ((evaluateSingleItemMatch simOne 2 exInvoiceItemFull exItemWiseGrnFull).matchScore : ℚ)
        / 100 := rfl
  refine ⟨hs, by rw [hs]; omega, ?_, ?_⟩
  · rw [hrec, hs]
    norm_num
  · rw [hrec, hs]
    norm_num

/-- C2 (amended): the header score is in `[0, 100]`; for any similarity
ratio valued in `[0, 1]`, the raw line score is in `[0, 115]` and the stored
normalized line score equals raw/100 and is in `[0, 1.15]` (the claimed
bounds 100 and 1 are raised by the unit-of-measurement and description
weights, see the counterexample). -/
theorem c2_score_bounds (tol : ℚ) (dt : ℤ) (inv : InvoiceData) (g : GrnSummary)
    (sim : String → String → ℚ) (ii : InvoiceItemData) (gi : ItemWiseGrn) (batchId : String)
    (hsim : ∀ a b, 0 ≤ sim a b ∧ sim a b ≤ 1) :
    (evaluateSingleMatch tol dt inv g).matchScore ≤ 100 ∧
    0 ≤ (evaluateSingleItemMatch sim tol ii gi).matchScore ∧
    (evaluateSingleItemMatch sim tol ii gi).matchScore ≤ 115 ∧
    (createItemReconciliationRecord tol batchId ii
        (evaluateSingleItemMatch sim tol ii gi)).matchScore =
      ((evaluateSingleItemMatch sim tol ii gi).matchScore : ℚ) / 100 ∧
    0 ≤ (createItemReconciliationRecord tol batchId ii
        (evaluateSingleItemMatch sim tol ii gi)).matchScore ∧
    (createItemReconciliationRecord tol batchId ii
        (evaluateSingleItemMatch sim tol ii gi)).matchScore ≤ 115 / 100 := by
  have hheader : (evaluateSingleMatch tol dt inv g).matchScore ≤ 100 := by
    show (if strFieldMatch inv.poNumber g.poNumber then 25 else 0) +
      (if strFieldMatch inv.invoiceNumber g.sellerInvoiceNumber then 20 else 0) +
      (if strFieldMatch inv.grnNumber g.grnNumber then 15 else 0) +
      (if evaluateVendorMatch inv g then 15 else 0) +
      (if evaluateDateValidation dt inv g then 10 else 0) +
      (evaluateAmountTolerance tol inv g).score ≤ 100
    exact headerWeightedSum_le _ _ _ _ _ _ (tieredScore_le_15 _ _ _)
  have hds := calcDescriptionSimilarity_bounds sim ii.itemDescription gi.itemName hsim
  have hd0 : (0 : ℚ) ≤ calcDescriptionSimilarity sim ii.itemDescription gi.itemName * 20 :=
    mul_nonneg hds.1 (by norm_num)
  have hd20 : calcDescriptionSimilarity sim ii.itemDescription gi.itemName * 20 ≤ 20 := by
    nlinarith [hds.2]
  have hpy0 : 0 ≤ pyInt (calcDescriptionSimilarity sim ii.itemDescription gi.itemName * 20) := by
    unfold pyInt
    rw [if_pos hd0]
    exact Int.floor_nonneg.mpr hd0
  have hpy20 : pyInt (calcDescriptionSimilarity sim ii.itemDescription gi.itemName * 20) ≤ 20 := by
    unfold pyInt
    rw [if_pos hd0]
    calc ⌊calcDescriptionSimilarity sim ii.itemDescription gi.itemName * 20⌋
        ≤ ⌊(20 : ℚ)⌋ := Int.floor_le_floor hd20
      _ = 20 := by norm_num
  have hq : (evaluateQuantityMatch tol ii gi).score ≤ 15 := tieredScore_le_15 _ _ _
  have hp : (evaluatePriceMatch tol ii gi).score ≤ 15 := tieredScore_le_15 _ _ _
  have ha : (evaluateAmountMatch tol ii gi).score ≤ 15 := tieredScore_le_15 _ _ _
  have hbounds : 0 ≤ (evaluateSingleItemMatch sim tol ii gi).matchScore ∧
      (evaluateSingleItemMatch sim tol ii gi).matchScore ≤ 115 := by
    show 0 ≤ (if strFieldMatch ii.hsnCode gi.hsnNo then 25 else 0) +
        (if checkTaxRateMatch ii gi then 15 else 0) +
        pyInt (calcDescriptionSimilarity sim ii.itemDescription gi.itemName * 20) +
        ((evaluateQuantityMatch tol ii gi).score : ℤ) +
        ((evaluatePriceMatch tol ii gi).score : ℤ) +
        ((evaluateAmountMatch tol ii gi).score : ℤ) +
        (if strFieldMatch ii.unitOfMeasurement gi.unit then 10 else 0) ∧
      (if strFieldMatch ii.hsnCode gi.hsnNo then 25 else 0) +
        (if checkTaxRateMatch ii gi then 15 else 0) +
        pyInt (calcDescriptionSimilarity sim ii.itemDescription gi.itemName * 20) +
        ((evaluateQuantityMatch tol ii gi).score : ℤ) +
        ((evaluatePriceMatch tol ii gi).score : ℤ) +
        ((evaluateAmountMatch tol ii gi).score : ℤ) +
        (if strFieldMatch ii.unitOfMeasurement gi.unit then 10 else 0) ≤ 115
    exact itemWeightedSum_bounds _ _ _ _ _ _ _ hpy0 hpy20 (Int.ofNat_nonneg _)
      (by exact_mod_cast hq) (Int.ofNat_nonneg _) (by exact_mod_cast hp)
      (Int.ofNat_nonneg _) (by exact_mod_cast ha)
  have hrec : (createItemReconciliationRecord tol batchId ii
      (evaluateSingleItemMatch sim tol ii gi)).matchScore =
      ((evaluateSingleItemMatch sim tol ii gi).matchScore : ℚ) / 100 := rfl
  refine ⟨hheader, hbounds.1, hbounds.2, hrec, ?_, ?_⟩
  · rw [hrec]
    have h0 : (0 : ℚ) ≤ ((evaluateSingleItemMatch sim tol ii gi).matchScore : ℚ) := by
      exact_mod_cast hbounds.1
    positivity
  · rw [hrec]
    have h115 : ((evaluateSingleItemMatch sim tol ii gi).matchScore : ℚ) ≤ 115 := by
      exact_mod_cast hbounds.2
    gcongr

/-- C2 witness: the bounds applied at a concrete header pair and line pair
with the all-zero similarity function. -/
theorem c2_score_bounds_witness :
    (evaluateSingleMatch 2 30 exInvoice0 exGrnSummary0).matchScore ≤ 100 ∧
    (evaluateSingleItemMatch simZero 2 exInvoiceItem0 exItemWiseGrn0).matchScore ≤ 115 := by
  have h := c2_score_bounds 2 30 exInvoice0 exGrnSummary0 simZero exInvoiceItem0 exItemWiseGrn0
    "BATCH0" (fun a b => by norm_num [simZero])
  exact ⟨h.1, h.2.2.1⟩

/-! Claim C5 — line `match_status` tag list and `overall_match_status`. -/

/-- The `match_status` value of `_evaluate_single_item_match`, factored over
the five criterion flags. -/
def itemMatchStatusOf (hsnOk taxOk subtotalOk quantityOk priceOk : Bool) : String :=
  if (mismatchTypes hsnOk taxOk subtotalOk quantityOk priceOk).length = 0 then "perfect_match"
  else String.intercalate ", " (mismatchTypes hsnOk taxOk subtotalOk quantityOk priceOk)

/-- The tag list contains exactly the failing criteria. -/
theorem mismatchTypes_mem (h t s q p : Bool) (x : String) :
    x ∈ mismatchTypes h t s q p ↔
      (x = "hsn_mismatch" ∧ h = false) ∨ (x = "tax_rate_mismatch" ∧ t = false) ∨
      (x = "subtotal_mismatch" ∧ s = false) ∨ (x = "quantity_mismatch" ∧ q = false) ∨
      (x = "price_mismatch" ∧ p = false) := by
  unfold mismatchTypes
  cases h <;> cases t <;> cases s <;> cases q <;> cases p <;> simp

/-- The comma-joined status collapses to `perfect_match` exactly when no
criterion fails. -/
theorem itemMatchStatusOf_eq_perfect_iff (h t s q p : Bool) :
    itemMatchStatusOf h t s q p = "perfect_match" ↔
      (h = true ∧ t = true ∧ s = true ∧ q = true ∧ p = true) := by
  cases h <;> cases t <;> cases s <;> cases q <;> cases p <;> decide

/-- Case analysis of the tri-state overall status over the five criterion
flags. -/
theorem itemOverallStatus_cases (s q p h t : Bool) :
    (itemOverallStatus s q p h t = "complete_match" ↔
      (h = true ∧ t = true ∧ s = true ∧ q = true ∧ p = true)) ∧
    (itemOverallStatus s q p h t = "conditional_match" ↔
      (h = true ∧ t = true ∧ s = true ∧ ¬(q = true ∧ p = true))) ∧
    (itemOverallStatus s q p h t = "mismatch" ↔ ¬(h = true ∧ t = true ∧ s = true)) := by
  cases s <;> cases q <;> cases p <;> cases h <;> cases t <;> decide

/-- C5 (confirmed): the recorded line `match_status` is the comma-joined
list of exactly the failing criteria among hsn / tax-rate / subtotal /
quantity / price (in that order), `perfect_match` exactly when none fail,
and the recorded `overall_match_status` is `complete_match` when all five
pass, `conditional_match` when the core three pass but quantity or price
fails, and `mismatch` otherwise. -/
theorem c5_item_match_status (sim : String → String → ℚ) (tol : ℚ)
    (ii : InvoiceItemData) (gi : ItemWiseGrn) (batchId : String) :
    (createItemReconciliationRecord tol batchId ii
        (evaluateSingleItemMatch sim tol ii gi)).matchStatus =
      itemMatchStatusOf (evaluateSingleItemMatch sim tol ii gi).hsnMatch
        (evaluateSingleItemMatch sim tol ii gi).taxRateMatch
        (evaluateSingleItemMatch sim tol ii gi).amountEval.withinTolerance
        (evaluateSingleItemMatch sim tol ii gi).quantityEval.withinTolerance
        (evaluateSingleItemMatch sim tol ii gi).priceEval.withinTolerance ∧
    (∀ x, x ∈ mismatchTypes (evaluateSingleItemMatch sim tol ii gi).hsnMatch
        (evaluateSingleItemMatch sim tol ii gi).taxRateMatch
        (evaluateSingleItemMatch sim tol ii gi).amountEval.withinTolerance
        (evaluateSingleItemMatch sim tol ii gi).quantityEval.withinTolerance
        (evaluateSingleItemMatch sim tol ii gi).priceEval.withinTolerance ↔
      (x = "hsn_mismatch" ∧ (evaluateSingleItemMatch sim tol ii gi).hsnMatch = false) ∨
      (x = "tax_rate_mismatch" ∧ (evaluateSingleItemMatch sim tol ii gi).taxRateMatch = false) ∨
      (x = "subtotal_mismatch" ∧
        (evaluateSingleItemMatch sim tol ii gi).amountEval.withinTolerance = false) ∨
      (x = "quantity_mismatch" ∧
        (evaluateSingleItemMatch sim tol ii gi).quantityEval.withinTolerance = false) ∨
      (x = "price_mismatch" ∧
        (evaluateSingleItemMatch sim tol ii gi).priceEval.withinTolerance = false)) ∧
    ((createItemReconciliationRecord tol batchId ii
        (evaluateSingleItemMatch sim tol ii gi)).matchStatus = "perfect_match" ↔
      ((evaluateSingleItemMatch sim tol ii gi).hsnMatch = true ∧
        (evaluateSingleItemMatch sim tol ii gi).taxRateMatch = true ∧
        (evaluateSingleItemMatch sim tol ii gi).amountEval.withinTolerance = true ∧
        (evaluateSingleItemMatch sim tol ii gi).quantityEval.withinTolerance = true ∧
        (evaluateSingleItemMatch sim tol ii gi).priceEval.withinTolerance = true)) ∧
    ((createItemReconciliationRecord tol batchId ii
        (evaluateSingleItemMatch sim tol ii gi)).overallMatchStatus = some "complete_match" ↔
      ((evaluateSingleItemMatch sim tol ii gi).hsnMatch = true ∧
        (evaluateSingleItemMatch sim tol ii gi).taxRateMatch = true ∧
        (evaluateSingleItemMatch sim tol ii gi).amountEval.withinTolerance = true ∧
        (evaluateSingleItemMatch sim tol ii gi).quantityEval.withinTolerance = true ∧
        (evaluateSingleItemMatch sim tol ii gi).priceEval.withinTolerance = true)) ∧
    ((createItemReconciliationRecord tol batchId ii
        (evaluateSingleItemMatch sim tol ii gi)).overallMatchStatus = some "conditional_match" ↔
      ((evaluateSingleItemMatch sim tol ii gi).hsnMatch = true ∧
        (evaluateSingleItemMatch sim tol ii gi).taxRateMatch = true ∧
        (evaluateSingleItemMatch sim tol ii gi).amountEval.withinTolerance = true ∧
        ¬((evaluateSingleItemMatch sim tol ii gi).quantityEval.withinTolerance = true ∧
          (evaluateSingleItemMatch sim tol ii gi).priceEval.withinTolerance = true))) ∧
    ((createItemReconciliationRecord tol batchId ii
        (evaluateSingleItemMatch sim tol ii gi)).overallMatchStatus = some "mismatch" ↔
      ¬((evaluateSingleItemMatch sim tol ii gi).hsnMatch = true ∧
        (evaluateSingleItemMatch sim tol ii gi).taxRateMatch = true ∧
        (evaluateSingleItemMatch sim tol ii gi).amountEval.withinTolerance = true)) := by
  have hms : (createItemReconciliationRecord tol batchId ii
      (evaluateSingleItemMatch sim tol ii gi)).matchStatus =
      itemMatchStatusOf (evaluateSingleItemMatch sim tol ii gi).hsnMatch
        (evaluateSingleItemMatch sim tol ii gi).taxRateMatch
        (evaluateSingleItemMatch sim tol ii gi).amountEval.withinTolerance
        (evaluateSingleItemMatch sim tol ii gi).quantityEval.withinTolerance
        (evaluateSingleItemMatch sim tol ii gi).priceEval.withinTolerance := rfl
  have hov : (createItemReconciliationRecord tol batchId ii
      (evaluateSingleItemMatch sim tol ii gi)).overallMatchStatus =
      some (itemOverallStatus (evaluateSingleItemMatch sim tol ii gi).amountEval.withinTolerance
        (evaluateSingleItemMatch sim tol ii gi).quantityEval.withinTolerance
        (evaluateSingleItemMatch sim tol ii gi).priceEval.withinTolerance
        (evaluateSingleItemMatch sim tol ii gi).hsnMatch
        (evaluateSingleItemMatch sim tol ii gi).taxRateMatch) := rfl
  have hoc := itemOverallStatus_cases
    (evaluateSingleItemMatch sim tol ii gi).amountEval.withinTolerance
    (evaluateSingleItemMatch sim tol ii gi).quantityEval.withinTolerance
    (evaluateSingleItemMatch sim tol ii gi).priceEval.withinTolerance
    (evaluateSingleItemMatch sim tol ii gi).hsnMatch
    (evaluateSingleItemMatch sim tol ii gi).taxRateMatch
  refine ⟨hms, ?_, ?_, ?_, ?_, ?_⟩
  · intro x
    exact mismatchTypes_mem _ _ _ _ _ x
  · rw [hms]
    exact itemMatchStatusOf_eq_perfect_iff _ _ _ _ _
  · rw [hov]
    simp only [Option.some_inj]
    exact hoc.1
  · rw [hov]
    simp only [Option.some_inj]
    exact hoc.2.1
  · rw [hov]
    simp only [Option.some_inj]
    exact hoc.2.2

/-- C5 witness: on the all-matching line pair the recorded statuses are
`perfect_match` and `complete_match`. -/
theorem c5_item_match_status_witness :
    (createItemReconciliationRecord 2 "BATCH1" exInvoiceItemFull
      (evaluateSingleItemMatch simOne 2 exInvoiceItemFull exItemWiseGrnFull)).matchStatus =
      "perfect_match" ∧
    (createItemReconciliationRecord 2 "BATCH1" exInvoiceItemFull
      (evaluateSingleItemMatch simOne 2 exInvoiceItemFull exItemWiseGrnFull)).overallMatchStatus =
      some "complete_match" := by
  have h := c5_item_match_status simOne 2 exInvoiceItemFull exItemWiseGrnFull "BATCH1"
  have hflags : (evaluateSingleItemMatch simOne 2 exInvoiceItemFull exItemWiseGrnFull).hsnMatch
        = true ∧
      (evaluateSingleItemMatch simOne 2 exInvoiceItemFull exItemWiseGrnFull).taxRateMatch
        = true ∧
      (evaluateSingleItemMatch simOne 2 exInvoiceItemFull
        exItemWiseGrnFull).amountEval.withinTolerance = true ∧
      (evaluateSingleItemMatch simOne 2 exInvoiceItemFull
        exItemWiseGrnFull).quantityEval.withinTolerance = true ∧
      (evaluateSingleItemMatch simOne 2 exInvoiceItemFull
        exItemWiseGrnFull).priceEval.withinTolerance = true := by
    norm_num [evaluateSingleItemMatch, strFieldMatch, checkTaxRateMatch,
      calcDescriptionSimilarity, pyInt, evaluateQuantityMatch, evaluatePriceMatch,
      evaluateAmountMatch, tieredScore, safeDecimal, pyTruthyQ, simOne, exInvoiceItemFull,
      exItemWiseGrnFull, exInvoiceItem0, exItemWiseGrn0,
      (by decide : ("H1" : String).isEmpty = false),
      (by decide : ("WIDGET" : String).isEmpty = false),
      (by decide : ("PCS" : String).isEmpty = false)]
  exact ⟨h.2.2.1.mpr hflags, h.2.2.2.1.mpr hflags⟩

/-! Claim C6 — save-time derivation of requires_review / is_exception. -/

/-- Modelled from the spec words for the counterexample comparison:
"requires_review = true when match_status indicates any mismatch category,
any tolerance flag is false, or zero candidate line items were matched"; the
mismatch categories of the header status enum are `amount_mismatch`,
`vendor_mismatch` and `date_mismatch`. -/
def specHeaderRequiresReview (r : InvoiceGrnReconciliationRec) : Bool :=
  (r.matchStatus == "amount_mismatch" || r.matchStatus == "vendor_mismatch" ||
    r.matchStatus == "date_mismatch") ||
  !headerIsWithinTolerance r || r.totalGrnLineItems == 0

/-- A header record in the `date_mismatch` category whose amounts are within
tolerance and which has matched line items. -/
def exHeaderDateMismatch : InvoiceGrnReconciliationRec :=
  { defaultHeaderRec with
    matchStatus := "date_mismatch"
    totalVariance := some 0
    grnTotal := some 100
    toleranceApplied := 2
    totalGrnLineItems := 5 }

/-- C6 (corrected, counterexample): a saved header record with
`match_status = date_mismatch` — a mismatch category — is NOT flagged for
review by the code, because the save override tests membership in
`['amount_mismatch', 'vendor_mismatch', 'multiple_grn']`, which omits
`date_mismatch`; the spec predicate says it must be flagged. -/
theorem c6_counterexample :
    specHeaderRequiresReview exHeaderDateMismatch = true ∧
    (invoiceGrnReconSave exHeaderDateMismatch).requiresReview = false := by
  constructor
  · norm_num [specHeaderRequiresReview, exHeaderDateMismatch, defaultHeaderRec,
      headerIsWithinTolerance]
  · norm_num [invoiceGrnReconSave, exHeaderDateMismatch, defaultHeaderRec,
      headerIsWithinTolerance, headerSaveVariancePct]
    decide

/-- C6 (amended): on every save, the header flags are recomputed as
`requires_review` ⟺ status ∈ {amount_mismatch, vendor_mismatch,
multiple_grn} (`date_mismatch` is NOT in the list) ∨ not within tolerance ∨
zero GRN line items, and `is_exception` ⟺ status ∈ {no_match, no_grn_found}
∨ total variance percentage > 10; the line flags as `requires_review` ⟺
status ∈ {amount_mismatch, quantity_mismatch, no_match} (exact equality, so
comma-joined tag lists do not qualify) ∨ a tolerance flag is false ∨ a
significant (>10%) variance, and `is_exception` ⟺ status = no_match ∨
|total amount variance percentage| > 15 (truthiness-guarded); moreover both
saves ignore the incoming flag values entirely. -/
theorem c6_saved_flags (r : InvoiceGrnReconciliationRec) (s : InvoiceItemReconciliationRec)
    (b1 b2 b3 b4 : Bool) :
    ((invoiceGrnReconSave r).requiresReview = true ↔
      (r.matchStatus = "amount_mismatch" ∨ r.matchStatus = "vendor_mismatch" ∨
        r.matchStatus = "multiple_grn" ∨ headerIsWithinTolerance r = false ∨
        r.totalGrnLineItems = 0)) ∧
    ((invoiceGrnReconSave r).isException = true ↔
      (r.matchStatus = "no_match" ∨ r.matchStatus = "no_grn_found" ∨
        headerSaveVariancePct r > 10)) ∧
    invoiceGrnReconSave { r with requiresReview := b1, isException := b2 } =
      invoiceGrnReconSave r ∧
    ((invoiceItemReconSave s).requiresReview = true ↔
      (s.matchStatus = "amount_mismatch" ∨ s.matchStatus = "quantity_mismatch" ∨
        s.matchStatus = "no_match" ∨ s.isWithinAmountTolerance = false ∨
        s.isWithinQuantityTolerance = false ∨ itemHasSignificantVariance s = true)) ∧
    ((invoiceItemReconSave s).isException = true ↔
      (s.matchStatus = "no_match" ∨
        (pyTruthyQ s.totalAmountVariancePercentage = true ∧
          |safeDecimal s.totalAmountVariancePercentage| > 15))) ∧
    invoiceItemReconSave { s with requiresReview := b3, isException := b4 } =
      invoiceItemReconSave s := by
  refine ⟨?_, ?_, rfl, ?_, ?_, rfl⟩
  · simp [invoiceGrnReconSave, Bool.or_eq_true, Bool.not_eq_true']
    tauto
  · simp [invoiceGrnReconSave, Bool.or_eq_true, or_assoc]
  · simp [invoiceItemReconSave, Bool.or_eq_true, Bool.not_eq_true']
    tauto
  · simp [invoiceItemReconSave, Bool.or_eq_true, Bool.and_eq_true, or_assoc]

/-- C6 witness: a saved `no_grn_found` header record is an exception, and a
saved default line record (tolerance flags false) requires review. -/
theorem c6_saved_flags_witness :
    (invoiceGrnReconSave { defaultHeaderRec with matchStatus := "no_grn_found" }).isException
      = true ∧
    (invoiceItemReconSave defaultItemRec).requiresReview = true := by
  have h := c6_saved_flags { defaultHeaderRec with matchStatus := "no_grn_found" }
    defaultItemRec true false true false
  exact ⟨h.2.1.mpr (Or.inr (Or.inl rfl)),
    h.2.2.2.1.mpr (Or.inr (Or.inr (Or.inr (Or.inl rfl))))⟩

/-! Claim C7 preparatory lemmas. -/

/-- Fields of the record that `recalcQuantityStep` leaves unchanged. -/
theorem recalcQuantityStep_preserves (r : InvoiceItemReconciliationRec) :
    (recalcQuantityStep r).matchStatus = r.matchStatus ∧
    (recalcQuantityStep r).manualMatch = r.manualMatch ∧
    (recalcQuantityStep r).isAutoMatched = r.isAutoMatched ∧
    (recalcQuantityStep r).overallMatchStatus = r.overallMatchStatus ∧
    (recalcQuantityStep r).reconciliationNotes = r.reconciliationNotes ∧
    (recalcQuantityStep r).invoiceItemQuantity = r.invoiceItemQuantity ∧
    (recalcQuantityStep r).grnItemQuantity = r.grnItemQuantity ∧
    (recalcQuantityStep r).invoiceItemSubtotal = r.invoiceItemSubtotal ∧
    (recalcQuantityStep r).grnItemSubtotal = r.grnItemSubtotal ∧
    (recalcQuantityStep r).invoiceItemTotalAmount = r.invoiceItemTotalAmount ∧
    (recalcQuantityStep r).grnItemTotalAmount = r.grnItemTotalAmount ∧
    (recalcQuantityStep r).invoiceItemUnitPrice = r.invoiceItemUnitPrice ∧
    (recalcQuantityStep r).grnItemUnitPrice = r.grnItemUnitPrice ∧
    (recalcQuantityStep r).invoiceItemCgstAmount = r.invoiceItemCgstAmount ∧
    (recalcQuantityStep r).grnItemCgstAmount = r.grnItemCgstAmount ∧
    (recalcQuantityStep r).invoiceItemSgstAmount = r.invoiceItemSgstAmount ∧
    (recalcQuantityStep r).grnItemSgstAmount = r.grnItemSgstAmount ∧
    (recalcQuantityStep r).invoiceItemIgstAmount = r.invoiceItemIgstAmount ∧
    (recalcQuantityStep r).grnItemIgstAmount = r.grnItemIgstAmount ∧
    (recalcQuantityStep r).invoiceItemTotalTax = r.invoiceItemTotalTax ∧
    (recalcQuantityStep r).grnItemTotalTax = r.grnItemTotalTax ∧
    (recalcQuantityStep r).subtotalVariance = r.subtotalVariance ∧
    (recalcQuantityStep r).totalAmountVariance = r.totalAmountVariance ∧
    (recalcQuantityStep r).unitRateVariance = r.unitRateVariance ∧
    (recalcQuantityStep r).cgstVariance = r.cgstVariance ∧
    (recalcQuantityStep r).sgstVariance = r.sgstVariance ∧
    (recalcQuantityStep r).igstVariance = r.igstVariance ∧
    (recalcQuantityStep r).totalTaxVariance = r.totalTaxVariance := by
  unfold recalcQuantityStep
  split_ifs <;> simp

/-- Fields of the record that `recalcSubtotalStep` leaves unchanged. -/
theorem recalcSubtotalStep_preserves (r : InvoiceItemReconciliationRec) :
    (recalcSubtotalStep r).matchStatus = r.matchStatus ∧
    (recalcSubtotalStep r).manualMatch = r.manualMatch ∧
    (recalcSubtotalStep r).isAutoMatched = r.isAutoMatched ∧
    (recalcSubtotalStep r).overallMatchStatus = r.overallMatchStatus ∧
    (recalcSubtotalStep r).reconciliationNotes = r.reconciliationNotes ∧
    (recalcSubtotalStep r).invoiceItemQuantity = r.invoiceItemQuantity ∧
    (recalcSubtotalStep r).grnItemQuantity = r.grnItemQuantity ∧
    (recalcSubtotalStep r).invoiceItemSubtotal = r.invoiceItemSubtotal ∧
    (recalcSubtotalStep r).grnItemSubtotal = r.grnItemSubtotal ∧
    (recalcSubtotalStep r).invoiceItemTotalAmount = r.invoiceItemTotalAmount ∧
    (recalcSubtotalStep r).grnItemTotalAmount = r.grnItemTotalAmount ∧
    (recalcSubtotalStep r).invoiceItemUnitPrice = r.invoiceItemUnitPrice ∧
    (recalcSubtotalStep r).grnItemUnitPrice = r.grnItemUnitPrice ∧
    (recalcSubtotalStep r).invoiceItemCgstAmount = r.invoiceItemCgstAmount ∧
    (recalcSubtotalStep r).grnItemCgstAmount = r.grnItemCgstAmount ∧
    (recalcSubtotalStep r).invoiceItemSgstAmount = r.invoiceItemSgstAmount ∧
    (recalcSubtotalStep r).grnItemSgstAmount = r.grnItemSgstAmount ∧
    (recalcSubtotalStep r).invoiceItemIgstAmount = r.invoiceItemIgstAmount ∧
    (recalcSubtotalStep r).grnItemIgstAmount = r.grnItemIgstAmount ∧
    (recalcSubtotalStep r).invoiceItemTotalTax = r.invoiceItemTotalTax ∧
    (recalcSubtotalStep r).grnItemTotalTax = r.grnItemTotalTax ∧
    (recalcSubtotalStep r).quantityVariance = r.quantityVariance ∧
    (recalcSubtotalStep r).totalAmountVariance = r.totalAmountVariance ∧
    (recalcSubtotalStep r).unitRateVariance = r.unitRateVariance ∧
    (recalcSubtotalStep r).cgstVariance = r.cgstVariance ∧
    (recalcSubtotalStep r).sgstVariance = r.sgstVariance ∧
    (recalcSubtotalStep r).igstVariance = r.igstVariance ∧
    (recalcSubtotalStep r).totalTaxVariance = r.totalTaxVariance := by
  unfold recalcSubtotalStep
  split_ifs <;> simp

/-- Fields of the record that `recalcTotalAmountStep` leaves unchanged. -/
theorem recalcTotalAmountStep_preserves (r : InvoiceItemReconciliationRec) :
    (recalcTotalAmountStep r).matchStatus = r.matchStatus ∧
    (recalcTotalAmountStep r).manualMatch = r.manualMatch ∧
    (recalcTotalAmountStep r).isAutoMatched = r.isAutoMatched ∧
    (recalcTotalAmountStep r).overallMatchStatus = r.overallMatchStatus ∧
    (recalcTotalAmountStep r).reconciliationNotes = r.reconciliationNotes ∧
    (recalcTotalAmountStep r).invoiceItemQuantity = r.invoiceItemQuantity ∧
    (recalcTotalAmountStep r).grnItemQuantity = r.grnItemQuantity ∧
    (recalcTotalAmountStep r).invoiceItemSubtotal = r.invoiceItemSubtotal ∧
    (recalcTotalAmountStep r).grnItemSubtotal = r.grnItemSubtotal ∧
    (recalcTotalAmountStep r).invoiceItemTotalAmount = r.invoiceItemTotalAmount ∧
    (recalcTotalAmountStep r).grnItemTotalAmount = r.grnItemTotalAmount ∧
    (recalcTotalAmountStep r).invoiceItemUnitPrice = r.invoiceItemUnitPrice ∧
    (recalcTotalAmountStep r).grnItemUnitPrice = r.grnItemUnitPrice ∧
    (recalcTotalAmountStep r).invoiceItemCgstAmount = r.invoiceItemCgstAmount ∧
    (recalcTotalAmountStep r).grnItemCgstAmount = r.grnItemCgstAmount ∧
    (recalcTotalAmountStep r).invoiceItemSgstAmount = r.invoiceItemSgstAmount ∧
    (recalcTotalAmountStep r).grnItemSgstAmount = r.grnItemSgstAmount ∧
    (recalcTotalAmountStep r).invoiceItemIgstAmount = r.invoiceItemIgstAmount ∧
    (recalcTotalAmountStep r).grnItemIgstAmount = r.grnItemIgstAmount ∧
    (recalcTotalAmountStep r).invoiceItemTotalTax = r.invoiceItemTotalTax ∧
    (recalcTotalAmountStep r).grnItemTotalTax = r.grnItemTotalTax ∧
    (recalcTotalAmountStep r).quantityVariance = r.quantityVariance ∧
    (recalcTotalAmountStep r).subtotalVariance = r.subtotalVariance ∧
    (recalcTotalAmountStep r).unitRateVariance = r.unitRateVariance ∧
    (recalcTotalAmountStep r).cgstVariance = r.cgstVariance ∧
    (recalcTotalAmountStep r).sgstVariance = r.sgstVariance ∧
    (recalcTotalAmountStep r).igstVariance = r.igstVariance ∧
    (recalcTotalAmountStep r).totalTaxVariance = r.totalTaxVariance := by
  unfold recalcTotalAmountStep
  split_ifs <;> simp

/-- Fields of the record that `recalcUnitPriceStep` leaves unchanged. -/
theorem recalcUnitPriceStep_preserves (r : InvoiceItemReconciliationRec) :
    (recalcUnitPriceStep r).matchStatus = r.matchStatus ∧
    (recalcUnitPriceStep r).manualMatch = r.manualMatch ∧
    (recalcUnitPriceStep r).isAutoMatched = r.isAutoMatched ∧
    (recalcUnitPriceStep r).overallMatchStatus = r.overallMatchStatus ∧
    (recalcUnitPriceStep r).reconciliationNotes = r.reconciliationNotes ∧
    (recalcUnitPriceStep r).invoiceItemQuantity = r.invoiceItemQuantity ∧
    (recalcUnitPriceStep r).grnItemQuantity = r.grnItemQuantity ∧
    (recalcUnitPriceStep r).invoiceItemSubtotal = r.invoiceItemSubtotal ∧
    (recalcUnitPriceStep r).grnItemSubtotal = r.grnItemSubtotal ∧
    (recalcUnitPriceStep r).invoiceItemTotalAmount = r.invoiceItemTotalAmount ∧
    (recalcUnitPriceStep r).grnItemTotalAmount = r.grnItemTotalAmount ∧
    (recalcUnitPriceStep r).invoiceItemUnitPrice = r.invoiceItemUnitPrice ∧
    (recalcUnitPriceStep r).grnItemUnitPrice = r.grnItemUnitPrice ∧
    (recalcUnitPriceStep r).invoiceItemCgstAmount = r.invoiceItemCgstAmount ∧
    (recalcUnitPriceStep r).grnItemCgstAmount = r.grnItemCgstAmount ∧
    (recalcUnitPriceStep r).invoiceItemSgstAmount = r.invoiceItemSgstAmount ∧
    (recalcUnitPriceStep r).grnItemSgstAmount = r.grnItemSgstAmount ∧
    (recalcUnitPriceStep r).invoiceItemIgstAmount = r.invoiceItemIgstAmount ∧
    (recalcUnitPriceStep r).grnItemIgstAmount = r.grnItemIgstAmount ∧
    (recalcUnitPriceStep r).invoiceItemTotalTax = r.invoiceItemTotalTax ∧
    (recalcUnitPriceStep r).grnItemTotalTax = r.grnItemTotalTax ∧
    (recalcUnitPriceStep r).quantityVariance = r.quantityVariance ∧
    (recalcUnitPriceStep r).subtotalVariance = r.subtotalVariance ∧
    (recalcUnitPriceStep r).totalAmountVariance = r.totalAmountVariance ∧
    (recalcUnitPriceStep r).cgstVariance = r.cgstVariance ∧
    (recalcUnitPriceStep r).sgstVariance = r.sgstVariance ∧
    (recalcUnitPriceStep r).igstVariance = r.igstVariance ∧
    (recalcUnitPriceStep r).totalTaxVariance = r.totalTaxVariance := by
  unfold recalcUnitPriceStep
  split_ifs <;> simp

/-- Fields of the record that `recalcCgstStep` leaves unchanged. -/
theorem recalcCgstStep_preserves (r : InvoiceItemReconciliationRec) :
    (recalcCgstStep r).matchStatus = r.matchStatus ∧
    (recalcCgstStep r).manualMatch = r.manualMatch ∧
    (recalcCgstStep r).isAutoMatched = r.isAutoMatched ∧
    (recalcCgstStep r).overallMatchStatus = r.overallMatchStatus ∧
    (recalcCgstStep r).reconciliationNotes = r.reconciliationNotes ∧
    (recalcCgstStep r).invoiceItemQuantity = r.invoiceItemQuantity ∧
    (recalcCgstStep r).grnItemQuantity = r.grnItemQuantity ∧
    (recalcCgstStep r).invoiceItemSubtotal = r.invoiceItemSubtotal ∧
    (recalcCgstStep r).grnItemSubtotal = r.grnItemSubtotal ∧
    (recalcCgstStep r).invoiceItemTotalAmount = r.invoiceItemTotalAmount ∧
    (recalcCgstStep r).grnItemTotalAmount = r.grnItemTotalAmount ∧
    (recalcCgstStep r).invoiceItemUnitPrice = r.invoiceItemUnitPrice ∧
    (recalcCgstStep r).grnItemUnitPrice = r.grnItemUnitPrice ∧
    (recalcCgstStep r).invoiceItemCgstAmount = r.invoiceItemCgstAmount ∧
    (recalcCgstStep r).grnItemCgstAmount = r.grnItemCgstAmount ∧
    (recalcCgstStep r).invoiceItemSgstAmount = r.invoiceItemSgstAmount ∧
    (recalcCgstStep r).grnItemSgstAmount = r.grnItemSgstAmount ∧
    (recalcCgstStep r).invoiceItemIgstAmount = r.invoiceItemIgstAmount ∧
    (recalcCgstStep r).grnItemIgstAmount = r.grnItemIgstAmount ∧
    (recalcCgstStep r).invoiceItemTotalTax = r.invoiceItemTotalTax ∧
    (recalcCgstStep r).grnItemTotalTax = r.grnItemTotalTax ∧
    (recalcCgstStep r).quantityVariance = r.quantityVariance ∧
    (recalcCgstStep r).subtotalVariance = r.subtotalVariance ∧
    (recalcCgstStep r).totalAmountVariance = r.totalAmountVariance ∧
    (recalcCgstStep r).unitRateVariance = r.unitRateVariance ∧
    (recalcCgstStep r).sgstVariance = r.sgstVariance ∧
    (recalcCgstStep r).igstVariance = r.igstVariance ∧
    (recalcCgstStep r).totalTaxVariance = r.totalTaxVariance := by
  unfold recalcCgstStep
  split_ifs <;> simp

/-- Fields of the record that `recalcSgstStep` leaves unchanged. -/
theorem recalcSgstStep_preserves (r : InvoiceItemReconciliationRec) :
    (recalcSgstStep r).matchStatus = r.matchStatus ∧
    (recalcSgstStep r).manualMatch = r.manualMatch ∧
    (recalcSgstStep r).isAutoMatched = r.isAutoMatched ∧
    (recalcSgstStep r).overallMatchStatus = r.overallMatchStatus ∧
    (recalcSgstStep r).reconciliationNotes = r.reconciliationNotes ∧
    (recalcSgstStep r).invoiceItemQuantity = r.invoiceItemQuantity ∧
    (recalcSgstStep r).grnItemQuantity = r.grnItemQuantity ∧
    (recalcSgstStep r).invoiceItemSubtotal = r.invoiceItemSubtotal ∧
    (recalcSgstStep r).grnItemSubtotal = r.grnItemSubtotal ∧
    (recalcSgstStep r).invoiceItemTotalAmount = r.invoiceItemTotalAmount ∧
    (recalcSgstStep r).grnItemTotalAmount = r.grnItemTotalAmount ∧
    (recalcSgstStep r).invoiceItemUnitPrice = r.invoiceItemUnitPrice ∧
    (recalcSgstStep r).grnItemUnitPrice = r.grnItemUnitPrice ∧
    (recalcSgstStep r).invoiceItemCgstAmount = r.invoiceItemCgstAmount ∧
    (recalcSgstStep r).grnItemCgstAmount = r.grnItemCgstAmount ∧
    (recalcSgstStep r).invoiceItemSgstAmount = r.invoiceItemSgstAmount ∧
    (recalcSgstStep r).grnItemSgstAmount = r.grnItemSgstAmount ∧
    (recalcSgstStep r).invoiceItemIgstAmount = r.invoiceItemIgstAmount ∧
    (recalcSgstStep r).grnItemIgstAmount = r.grnItemIgstAmount ∧
    (recalcSgstStep r).invoiceItemTotalTax = r.invoiceItemTotalTax ∧
    (recalcSgstStep r).grnItemTotalTax = r.grnItemTotalTax ∧
    (recalcSgstStep r).quantityVariance = r.quantityVariance ∧
    (recalcSgstStep r).subtotalVariance = r.subtotalVariance ∧
    (recalcSgstStep r).totalAmountVariance = r.totalAmountVariance ∧
    (recalcSgstStep r).unitRateVariance = r.unitRateVariance ∧
    (recalcSgstStep r).cgstVariance = r.cgstVariance ∧
    (recalcSgstStep r).igstVariance = r.igstVariance ∧
    (recalcSgstStep r).totalTaxVariance = r.totalTaxVariance := by
  unfold recalcSgstStep
  split_ifs <;> simp

/-- Fields of the record that `recalcIgstStep` leaves unchanged. -/
theorem recalcIgstStep_preserves (r : InvoiceItemReconciliationRec) :
    (recalcIgstStep r).matchStatus = r.matchStatus ∧
    (recalcIgstStep r).manualMatch = r.manualMatch ∧
    (recalcIgstStep r).isAutoMatched = r.isAutoMatched ∧
    (recalcIgstStep r).overallMatchStatus = r.overallMatchStatus ∧
    (recalcIgstStep r).reconciliationNotes = r.reconciliationNotes ∧
    (recalcIgstStep r).invoiceItemQuantity = r.invoiceItemQuantity ∧
    (recalcIgstStep r).grnItemQuantity = r.grnItemQuantity ∧
    (recalcIgstStep r).invoiceItemSubtotal = r.invoiceItemSubtotal ∧
    (recalcIgstStep r).grnItemSubtotal = r.grnItemSubtotal ∧
    (recalcIgstStep r).invoiceItemTotalAmount = r.invoiceItemTotalAmount ∧
    (recalcIgstStep r).grnItemTotalAmount = r.grnItemTotalAmount ∧
    (recalcIgstStep r).invoiceItemUnitPrice = r.invoiceItemUnitPrice ∧
    (recalcIgstStep r).grnItemUnitPrice = r.grnItemUnitPrice ∧
    (recalcIgstStep r).invoiceItemCgstAmount = r.invoiceItemCgstAmount ∧
    (recalcIgstStep r).grnItemCgstAmount = r.grnItemCgstAmount ∧
    (recalcIgstStep r).invoiceItemSgstAmount = r.invoiceItemSgstAmount ∧
    (recalcIgstStep r).grnItemSgstAmount = r.grnItemSgstAmount ∧
    (recalcIgstStep r).invoiceItemIgstAmount = r.invoiceItemIgstAmount ∧
    (recalcIgstStep r).grnItemIgstAmount = r.grnItemIgstAmount ∧
    (recalcIgstStep r).invoiceItemTotalTax = r.invoiceItemTotalTax ∧
    (recalcIgstStep r).grnItemTotalTax = r.grnItemTotalTax ∧
    (recalcIgstStep r).quantityVariance = r.quantityVariance ∧
    (recalcIgstStep r).subtotalVariance = r.subtotalVariance ∧
    (recalcIgstStep r).totalAmountVariance = r.totalAmountVariance ∧
    (recalcIgstStep r).unitRateVariance = r.unitRateVariance ∧
    (recalcIgstStep r).cgstVariance = r.cgstVariance ∧
    (recalcIgstStep r).sgstVariance = r.sgstVariance ∧
    (recalcIgstStep r).totalTaxVariance = r.totalTaxVariance := by
  unfold recalcIgstStep
  split_ifs <;> simp

/-- Fields of the record that `recalcTotalTaxStep` leaves unchanged. -/
theorem recalcTotalTaxStep_preserves (r : InvoiceItemReconciliationRec) :
    (recalcTotalTaxStep r).matchStatus = r.matchStatus ∧
    (recalcTotalTaxStep r).manualMatch = r.manualMatch ∧
    (recalcTotalTaxStep r).isAutoMatched = r.isAutoMatched ∧
    (recalcTotalTaxStep r).overallMatchStatus = r.overallMatchStatus ∧
    (recalcTotalTaxStep r).reconciliationNotes = r.reconciliationNotes ∧
    (recalcTotalTaxStep r).invoiceItemQuantity = r.invoiceItemQuantity ∧
    (recalcTotalTaxStep r).grnItemQuantity = r.grnItemQuantity ∧
    (recalcTotalTaxStep r).invoiceItemSubtotal = r.invoiceItemSubtotal ∧
    (recalcTotalTaxStep r).grnItemSubtotal = r.grnItemSubtotal ∧
    (recalcTotalTaxStep r).invoiceItemTotalAmount = r.invoiceItemTotalAmount ∧
    (recalcTotalTaxStep r).grnItemTotalAmount = r.grnItemTotalAmount ∧
    (recalcTotalTaxStep r).invoiceItemUnitPrice = r.invoiceItemUnitPrice ∧
    (recalcTotalTaxStep r).grnItemUnitPrice = r.grnItemUnitPrice ∧
    (recalcTotalTaxStep r).invoiceItemCgstAmount = r.invoiceItemCgstAmount ∧
    (recalcTotalTaxStep r).grnItemCgstAmount = r.grnItemCgstAmount ∧
    (recalcTotalTaxStep r).invoiceItemSgstAmount = r.invoiceItemSgstAmount ∧
    (recalcTotalTaxStep r).grnItemSgstAmount = r.grnItemSgstAmount ∧
    (recalcTotalTaxStep r).invoiceItemIgstAmount = r.invoiceItemIgstAmount ∧
    (recalcTotalTaxStep r).grnItemIgstAmount = r.grnItemIgstAmount ∧
    (recalcTotalTaxStep r).invoiceItemTotalTax = r.invoiceItemTotalTax ∧
    (recalcTotalTaxStep r).grnItemTotalTax = r.grnItemTotalTax ∧
    (recalcTotalTaxStep r).quantityVariance = r.quantityVariance ∧
    (recalcTotalTaxStep r).subtotalVariance = r.subtotalVariance ∧
    (recalcTotalTaxStep r).totalAmountVariance = r.totalAmountVariance ∧
    (recalcTotalTaxStep r).unitRateVariance = r.unitRateVariance ∧
    (recalcTotalTaxStep r).cgstVariance = r.cgstVariance ∧
    (recalcTotalTaxStep r).sgstVariance = r.sgstVariance ∧
    (recalcTotalTaxStep r).igstVariance = r.igstVariance := by
  unfold recalcTotalTaxStep
  split_ifs <;> simp

/-- Fields of the record that `recalcAmountToleranceStep` leaves unchanged. -/
theorem recalcAmountToleranceStep_preserves (r : InvoiceItemReconciliationRec) :
    (recalcAmountToleranceStep r).matchStatus = r.matchStatus ∧
    (recalcAmountToleranceStep r).manualMatch = r.manualMatch ∧
    (recalcAmountToleranceStep r).isAutoMatched = r.isAutoMatched ∧
    (recalcAmountToleranceStep r).overallMatchStatus = r.overallMatchStatus ∧
    (recalcAmountToleranceStep r).reconciliationNotes = r.reconciliationNotes ∧
    (recalcAmountToleranceStep r).invoiceItemQuantity = r.invoiceItemQuantity ∧
    (recalcAmountToleranceStep r).grnItemQuantity = r.grnItemQuantity ∧
    (recalcAmountToleranceStep r).invoiceItemSubtotal = r.invoiceItemSubtotal ∧
    (recalcAmountToleranceStep r).grnItemSubtotal = r.grnItemSubtotal ∧
    (recalcAmountToleranceStep r).invoiceItemTotalAmount = r.invoiceItemTotalAmount ∧
    (recalcAmountToleranceStep r).grnItemTotalAmount = r.grnItemTotalAmount ∧
    (recalcAmountToleranceStep r).invoiceItemUnitPrice = r.invoiceItemUnitPrice ∧
    (recalcAmountToleranceStep r).grnItemUnitPrice = r.grnItemUnitPrice ∧
    (recalcAmountToleranceStep r).invoiceItemCgstAmount = r.invoiceItemCgstAmount ∧
    (recalcAmountToleranceStep r).grnItemCgstAmount = r.grnItemCgstAmount ∧
    (recalcAmountToleranceStep r).invoiceItemSgstAmount = r.invoiceItemSgstAmount ∧
    (recalcAmountToleranceStep r).grnItemSgstAmount = r.grnItemSgstAmount ∧
    (recalcAmountToleranceStep r).invoiceItemIgstAmount = r.invoiceItemIgstAmount ∧
    (recalcAmountToleranceStep r).grnItemIgstAmount = r.grnItemIgstAmount ∧
    (recalcAmountToleranceStep r).invoiceItemTotalTax = r.invoiceItemTotalTax ∧
    (recalcAmountToleranceStep r).grnItemTotalTax = r.grnItemTotalTax ∧
    (recalcAmountToleranceStep r).quantityVariance = r.quantityVariance ∧
    (recalcAmountToleranceStep r).subtotalVariance = r.subtotalVariance ∧
    (recalcAmountToleranceStep r).totalAmountVariance = r.totalAmountVariance ∧
    (recalcAmountToleranceStep r).unitRateVariance = r.unitRateVariance ∧
    (recalcAmountToleranceStep r).cgstVariance = r.cgstVariance ∧
    (recalcAmountToleranceStep r).sgstVariance = r.sgstVariance ∧
    (recalcAmountToleranceStep r).igstVariance = r.igstVariance ∧
    (recalcAmountToleranceStep r).totalTaxVariance = r.totalTaxVariance := by
  unfold recalcAmountToleranceStep
  split_ifs <;> simp

/-- Fields of the record that `recalcQuantityToleranceStep` leaves unchanged. -/
theorem recalcQuantityToleranceStep_preserves (r : InvoiceItemReconciliationRec) :
    (recalcQuantityToleranceStep r).matchStatus = r.matchStatus ∧
    (recalcQuantityToleranceStep r).manualMatch = r.manualMatch ∧
    (recalcQuantityToleranceStep r).isAutoMatched = r.isAutoMatched ∧
    (recalcQuantityToleranceStep r).overallMatchStatus = r.overallMatchStatus ∧
    (recalcQuantityToleranceStep r).reconciliationNotes = r.reconciliationNotes ∧
    (recalcQuantityToleranceStep r).invoiceItemQuantity = r.invoiceItemQuantity ∧
    (recalcQuantityToleranceStep r).grnItemQuantity = r.grnItemQuantity ∧
    (recalcQuantityToleranceStep r).invoiceItemSubtotal = r.invoiceItemSubtotal ∧
    (recalcQuantityToleranceStep r).grnItemSubtotal = r.grnItemSubtotal ∧
    (recalcQuantityToleranceStep r).invoiceItemTotalAmount = r.invoiceItemTotalAmount ∧
    (recalcQuantityToleranceStep r).grnItemTotalAmount = r.grnItemTotalAmount ∧
    (recalcQuantityToleranceStep r).invoiceItemUnitPrice = r.invoiceItemUnitPrice ∧
    (recalcQuantityToleranceStep r).grnItemUnitPrice = r.grnItemUnitPrice ∧
    (recalcQuantityToleranceStep r).invoiceItemCgstAmount = r.invoiceItemCgstAmount ∧
    (recalcQuantityToleranceStep r).grnItemCgstAmount = r.grnItemCgstAmount ∧
    (recalcQuantityToleranceStep r).invoiceItemSgstAmount = r.invoiceItemSgstAmount ∧
    (recalcQuantityToleranceStep r).grnItemSgstAmount = r.grnItemSgstAmount ∧
    (recalcQuantityToleranceStep r).invoiceItemIgstAmount = r.invoiceItemIgstAmount ∧
    (recalcQuantityToleranceStep r).grnItemIgstAmount = r.grnItemIgstAmount ∧
    (recalcQuantityToleranceStep r).invoiceItemTotalTax = r.invoiceItemTotalTax ∧
    (recalcQuantityToleranceStep r).grnItemTotalTax = r.grnItemTotalTax ∧
    (recalcQuantityToleranceStep r).quantityVariance = r.quantityVariance ∧
    (recalcQuantityToleranceStep r).subtotalVariance = r.subtotalVariance ∧
    (recalcQuantityToleranceStep r).totalAmountVariance = r.totalAmountVariance ∧
    (recalcQuantityToleranceStep r).unitRateVariance = r.unitRateVariance ∧
    (recalcQuantityToleranceStep r).cgstVariance = r.cgstVariance ∧
    (recalcQuantityToleranceStep r).sgstVariance = r.sgstVariance ∧
    (recalcQuantityToleranceStep r).igstVariance = r.igstVariance ∧
    (recalcQuantityToleranceStep r).totalTaxVariance = r.totalTaxVariance := by
  unfold recalcQuantityToleranceStep
  split_ifs <;> simp


/-- With equal truthy sides, `recalcQuantityStep` recomputes a zero variance. -/
theorem recalcQuantityStep_zero (r : InvoiceItemReconciliationRec)
    (h : r.invoiceItemQuantity = r.grnItemQuantity) (ht : pyTruthyQ r.invoiceItemQuantity = true) :
    (recalcQuantityStep r).quantityVariance = some 0 := by
  have ht2 : pyTruthyQ r.grnItemQuantity = true := h ▸ ht
  simp [recalcQuantityStep, ht, ht2, h, apply_ite]

/-- With equal truthy sides, `recalcSubtotalStep` recomputes a zero variance. -/
theorem recalcSubtotalStep_zero (r : InvoiceItemReconciliationRec)
    (h : r.invoiceItemSubtotal = r.grnItemSubtotal) (ht : pyTruthyQ r.invoiceItemSubtotal = true) :
    (recalcSubtotalStep r).subtotalVariance = some 0 := by
  have ht2 : pyTruthyQ r.grnItemSubtotal = true := h ▸ ht
  simp [recalcSubtotalStep, ht, ht2, h, apply_ite]

/-- With equal truthy sides, `recalcTotalAmountStep` recomputes a zero variance. -/
theorem recalcTotalAmountStep_zero (r : InvoiceItemReconciliationRec)
    (h : r.invoiceItemTotalAmount = r.grnItemTotalAmount) (ht : pyTruthyQ r.invoiceItemTotalAmount = true) :
    (recalcTotalAmountStep r).totalAmountVariance = some 0 := by
  have ht2 : pyTruthyQ r.grnItemTotalAmount = true := h ▸ ht
  simp [recalcTotalAmountStep, ht, ht2, h, apply_ite]

/-- With equal truthy sides, `recalcUnitPriceStep` recomputes a zero variance. -/
theorem recalcUnitPriceStep_zero (r : InvoiceItemReconciliationRec)
    (h : r.invoiceItemUnitPrice = r.grnItemUnitPrice) (ht : pyTruthyQ r.invoiceItemUnitPrice = true) :
    (recalcUnitPriceStep r).unitRateVariance = some 0 := by
  have ht2 : pyTruthyQ r.grnItemUnitPrice = true := h ▸ ht
  simp [recalcUnitPriceStep, ht, ht2, h, apply_ite]

/-- With equal truthy sides, `recalcCgstStep` recomputes a zero variance. -/
theorem recalcCgstStep_zero (r : InvoiceItemReconciliationRec)
    (h : r.invoiceItemCgstAmount = r.grnItemCgstAmount) (ht : pyTruthyQ r.invoiceItemCgstAmount = true) :
    (recalcCgstStep r).cgstVariance = some 0 := by
  have ht2 : pyTruthyQ r.grnItemCgstAmount = true := h ▸ ht
  simp [recalcCgstStep, ht, ht2, h, apply_ite]

/-- With equal truthy sides, `recalcSgstStep` recomputes a zero variance. -/
theorem recalcSgstStep_zero (r : InvoiceItemReconciliationRec)
    (h : r.invoiceItemSgstAmount = r.grnItemSgstAmount) (ht : pyTruthyQ r.invoiceItemSgstAmount = true) :
    (recalcSgstStep r).sgstVariance = some 0 := by
  have ht2 : pyTruthyQ r.grnItemSgstAmount = true := h ▸ ht
  simp [recalcSgstStep, ht, ht2, h, apply_ite]

/-- With equal truthy sides, `recalcIgstStep` recomputes a zero variance. -/
theorem recalcIgstStep_zero (r : InvoiceItemReconciliationRec)
    (h : r.invoiceItemIgstAmount = r.grnItemIgstAmount) (ht : pyTruthyQ r.invoiceItemIgstAmount = true) :
    (recalcIgstStep r).igstVariance = some 0 := by
  have ht2 : pyTruthyQ r.grnItemIgstAmount = true := h ▸ ht
  simp [recalcIgstStep, ht, ht2, h, apply_ite]

/-- With equal truthy sides, `recalcTotalTaxStep` recomputes a zero variance. -/
theorem recalcTotalTaxStep_zero (r : InvoiceItemReconciliationRec)
    (h : r.invoiceItemTotalTax = r.grnItemTotalTax) (ht : pyTruthyQ r.invoiceItemTotalTax = true) :
    (recalcTotalTaxStep r).totalTaxVariance = some 0 := by
  have ht2 : pyTruthyQ r.grnItemTotalTax = true := h ▸ ht
  simp [recalcTotalTaxStep, ht, ht2, h, apply_ite]


/-- A single copy step never touches the status, flag or note fields. -/
theorem copyFieldValue_preserves (dir : SwapDirection) (r : InvoiceItemReconciliationRec)
    (k : CopyField) :
    (copyFieldValue dir r k).matchStatus = r.matchStatus ∧
    (copyFieldValue dir r k).manualMatch = r.manualMatch ∧
    (copyFieldValue dir r k).isAutoMatched = r.isAutoMatched ∧
    (copyFieldValue dir r k).overallMatchStatus = r.overallMatchStatus ∧
    (copyFieldValue dir r k).reconciliationNotes = r.reconciliationNotes := by
  cases dir <;> cases k <;> simp [copyFieldValue]

/-- The copy loop never touches the status, flag or note fields. -/
theorem applyFieldCopies_preserves (dir : SwapDirection) :
    ∀ (ks : List CopyField) (r : InvoiceItemReconciliationRec),
      (applyFieldCopies dir ks r).matchStatus = r.matchStatus ∧
      (applyFieldCopies dir ks r).manualMatch = r.manualMatch ∧
      (applyFieldCopies dir ks r).isAutoMatched = r.isAutoMatched ∧
      (applyFieldCopies dir ks r).overallMatchStatus = r.overallMatchStatus ∧
      (applyFieldCopies dir ks r).reconciliationNotes = r.reconciliationNotes := by
  intro ks
  induction ks with
  | nil => intro r; exact ⟨rfl, rfl, rfl, rfl, rfl⟩
  | cons k ks ih =>
    intro r
    have hc := copyFieldValue_preserves dir r k
    have hi := ih (copyFieldValue dir r k)
    exact ⟨hi.1.trans hc.1, hi.2.1.trans hc.2.1, hi.2.2.1.trans hc.2.2.1,
      hi.2.2.2.1.trans hc.2.2.2.1, hi.2.2.2.2.trans hc.2.2.2.2⟩

/-- The variance recalculation never touches the status, flag or note
fields. -/
theorem recalculateVariances_preserves (r : InvoiceItemReconciliationRec) :
    (recalculateVariances r).matchStatus = r.matchStatus ∧
    (recalculateVariances r).manualMatch = r.manualMatch ∧
    (recalculateVariances r).isAutoMatched = r.isAutoMatched ∧
    (recalculateVariances r).overallMatchStatus = r.overallMatchStatus ∧
    (recalculateVariances r).reconciliationNotes = r.reconciliationNotes := by
  simp only [recalculateVariances, recalcQuantityToleranceStep_preserves,
    recalcAmountToleranceStep_preserves, recalcTotalTaxStep_preserves, recalcIgstStep_preserves,
    recalcSgstStep_preserves, recalcCgstStep_preserves, recalcUnitPriceStep_preserves,
    recalcTotalAmountStep_preserves, recalcSubtotalStep_preserves, recalcQuantityStep_preserves]
  simp

/-- The variance recalculation never touches the snapshot fields. -/
theorem recalculateVariances_snapshots (r : InvoiceItemReconciliationRec) :
    (recalculateVariances r).invoiceItemQuantity = r.invoiceItemQuantity ∧
    (recalculateVariances r).invoiceItemSubtotal = r.invoiceItemSubtotal ∧
    (recalculateVariances r).invoiceItemTotalAmount = r.invoiceItemTotalAmount ∧
    (recalculateVariances r).invoiceItemUnitPrice = r.invoiceItemUnitPrice ∧
    (recalculateVariances r).invoiceItemCgstAmount = r.invoiceItemCgstAmount ∧
    (recalculateVariances r).invoiceItemSgstAmount = r.invoiceItemSgstAmount ∧
    (recalculateVariances r).invoiceItemIgstAmount = r.invoiceItemIgstAmount ∧
    (recalculateVariances r).invoiceItemTotalTax = r.invoiceItemTotalTax := by
  simp only [recalculateVariances, recalcQuantityToleranceStep_preserves,
    recalcAmountToleranceStep_preserves, recalcTotalTaxStep_preserves, recalcIgstStep_preserves,
    recalcSgstStep_preserves, recalcCgstStep_preserves, recalcUnitPriceStep_preserves,
    recalcTotalAmountStep_preserves, recalcSubtotalStep_preserves, recalcQuantityStep_preserves]
  simp

/-- On a record whose paired sides are equal — the state after a copy of all
fields — every truthy-guarded recalculated variance is zero. -/
theorem recalculateVariances_zero (r : InvoiceItemReconciliationRec)
    (hq : r.invoiceItemQuantity = r.grnItemQuantity)
    (hs : r.invoiceItemSubtotal = r.grnItemSubtotal)
    (hta : r.invoiceItemTotalAmount = r.grnItemTotalAmount)
    (hup : r.invoiceItemUnitPrice = r.grnItemUnitPrice)
    (hcg : r.invoiceItemCgstAmount = r.grnItemCgstAmount)
    (hsg : r.invoiceItemSgstAmount = r.grnItemSgstAmount)
    (hig : r.invoiceItemIgstAmount = r.grnItemIgstAmount)
    (htt : r.invoiceItemTotalTax = r.grnItemTotalTax) :
    (pyTruthyQ r.invoiceItemQuantity = true →
      (recalculateVariances r).quantityVariance = some 0) ∧
    (pyTruthyQ r.invoiceItemSubtotal = true →
      (recalculateVariances r).subtotalVariance = some 0) ∧
    (pyTruthyQ r.invoiceItemTotalAmount = true →
      (recalculateVariances r).totalAmountVariance = some 0) ∧
    (pyTruthyQ r.invoiceItemUnitPrice = true →
      (recalculateVariances r).unitRateVariance = some 0) ∧
    (pyTruthyQ r.invoiceItemCgstAmount = true →
      (recalculateVariances r).cgstVariance = some 0) ∧
    (pyTruthyQ r.invoiceItemSgstAmount = true →
      (recalculateVariances r).sgstVariance = some 0) ∧
    (pyTruthyQ r.invoiceItemIgstAmount = true →
      (recalculateVariances r).igstVariance = some 0) ∧
    (pyTruthyQ r.invoiceItemTotalTax = true →
      (recalculateVariances r).totalTaxVariance = some 0) := by
  refine ⟨?_, ?_, ?_, ?_, ?_, ?_, ?_, ?_⟩ <;> intro ht <;>
    simp only [recalculateVariances, recalcQuantityToleranceStep_preserves,
      recalcAmountToleranceStep_preserves, recalcTotalTaxStep_preserves,
      recalcIgstStep_preserves, recalcSgstStep_preserves, recalcCgstStep_preserves,
      recalcUnitPriceStep_preserves, recalcTotalAmountStep_preserves,
      recalcSubtotalStep_preserves, recalcQuantityStep_preserves]
  · exact recalcQuantityStep_zero r hq ht
  · refine recalcSubtotalStep_zero _ ?_ ?_ <;>
      simp only [recalcQuantityStep_preserves]
    · exact hs
    · exact ht
  · refine recalcTotalAmountStep_zero _ ?_ ?_ <;>
      simp only [recalcSubtotalStep_preserves, recalcQuantityStep_preserves]
    · exact hta
    · exact ht
  · refine recalcUnitPriceStep_zero _ ?_ ?_ <;>
      simp only [recalcTotalAmountStep_preserves, recalcSubtotalStep_preserves,
        recalcQuantityStep_preserves]
    · exact hup
    · exact ht
  · refine recalcCgstStep_zero _ ?_ ?_ <;>
      simp only [recalcUnitPriceStep_preserves, recalcTotalAmountStep_preserves,
        recalcSubtotalStep_preserves, recalcQuantityStep_preserves]
    · exact hcg
    · exact ht
  · refine recalcSgstStep_zero _ ?_ ?_ <;>
      simp only [recalcCgstStep_preserves, recalcUnitPriceStep_preserves,
        recalcTotalAmountStep_preserves, recalcSubtotalStep_preserves,
        recalcQuantityStep_preserves]
    · exact hsg
    · exact ht
  · refine recalcIgstStep_zero _ ?_ ?_ <;>
      simp only [recalcSgstStep_preserves, recalcCgstStep_preserves,
        recalcUnitPriceStep_preserves, recalcTotalAmountStep_preserves,
        recalcSubtotalStep_preserves, recalcQuantityStep_preserves]
    · exact hig
    · exact ht
  · refine recalcTotalTaxStep_zero _ ?_ ?_ <;>
      simp only [recalcIgstStep_preserves, recalcSgstStep_preserves, recalcCgstStep_preserves,
        recalcUnitPriceStep_preserves, recalcTotalAmountStep_preserves,
        recalcSubtotalStep_preserves, recalcQuantityStep_preserves]
    · exact htt
    · exact ht

/-- Requesting `all` selects every field mapping. -/
theorem getFieldMappings_all (fieldsToSwap : List String)
    (h : fieldsToSwap.contains "all" = true) :
    getFieldMappings fieldsToSwap = allFieldMappings := by
  unfold getFieldMappings
  rw [if_pos h]

/-- After copying every field, the paired sides agree. -/
theorem applyAllCopies_sides (dir : SwapDirection) (r : InvoiceItemReconciliationRec) :
    (applyFieldCopies dir allFieldMappings r).invoiceItemQuantity =
      (applyFieldCopies dir allFieldMappings r).grnItemQuantity ∧
    (applyFieldCopies dir allFieldMappings r).invoiceItemSubtotal =
      (applyFieldCopies dir allFieldMappings r).grnItemSubtotal ∧
    (applyFieldCopies dir allFieldMappings r).invoiceItemTotalAmount =
      (applyFieldCopies dir allFieldMappings r).grnItemTotalAmount ∧
    (applyFieldCopies dir allFieldMappings r).invoiceItemUnitPrice =
      (applyFieldCopies dir allFieldMappings r).grnItemUnitPrice ∧
    (applyFieldCopies dir allFieldMappings r).invoiceItemCgstAmount =
      (applyFieldCopies dir allFieldMappings r).grnItemCgstAmount ∧
    (applyFieldCopies dir allFieldMappings r).invoiceItemSgstAmount =
      (applyFieldCopies dir allFieldMappings r).grnItemSgstAmount ∧
    (applyFieldCopies dir allFieldMappings r).invoiceItemIgstAmount =
      (applyFieldCopies dir allFieldMappings r).grnItemIgstAmount ∧
    (applyFieldCopies dir allFieldMappings r).invoiceItemTotalTax =
      (applyFieldCopies dir allFieldMappings r).grnItemTotalTax := by
  cases dir <;> exact ⟨rfl, rfl, rfl, rfl, rfl, rfl, rfl, rfl⟩

/-- A line reconciliation record with a quantity mismatch, as the automatic
run records it. -/
def exItemRecQtyMismatch : InvoiceItemReconciliationRec :=
  { defaultItemRec with
    matchStatus := "quantity_mismatch"
    overallMatchStatus := some "mismatch"
    invoiceItemQuantity := some 10
    grnItemQuantity := some 5
    quantityVariance := some 5
    reconciliationNotes := some "auto-match" }

/-- C7 (corrected, counterexample): the manual-match operation never writes
`overall_match_status`; on a record whose overall status is `mismatch`, the
status is still `mismatch` (not `complete_match`) after a copy-all manual
match. -/
theorem c7_counterexample :
    (manualMatchRecord SwapDirection.invoiceToGrn ["all"] "alice" "2026-01-01 00:00:00"
      exItemRecQtyMismatch).overallMatchStatus = some "mismatch" ∧
    (manualMatchRecord SwapDirection.invoiceToGrn ["all"] "alice" "2026-01-01 00:00:00"
      exItemRecQtyMismatch).overallMatchStatus ≠ some "complete_match" := by
  have hsv : ∀ x : InvoiceItemReconciliationRec,
      (invoiceItemReconSave x).overallMatchStatus = x.overallMatchStatus := fun _ => rfl
  have h : (manualMatchRecord SwapDirection.invoiceToGrn ["all"] "alice" "2026-01-01 00:00:00"
      exItemRecQtyMismatch).overallMatchStatus = some "mismatch" := by
    simp only [manualMatchRecord]
    rw [hsv, (recalculateVariances_preserves _).2.2.2.1]
    exact (applyFieldCopies_preserves SwapDirection.invoiceToGrn _ _).2.2.2.1
  refine ⟨h, ?_⟩
  rw [h]
  simp

/-- C7 (amended): the manual-match endpoint rejects an invoice any of whose
records is already `perfect_match` (returning an error, records untouched);
on each processed record it copies the selected fields, sets
`match_status = perfect_match`, `manual_match = true`,
`is_auto_matched = false`, leaves `overall_match_status` UNCHANGED (the code
never sets it to `complete_match`), appends the audit note built from actor,
timestamp, direction, original status and fields touched; and when all
fields are copied, every variance whose (now equal) sides are truthy is
recalculated to zero — variances with null or zero sides keep their previous
values. -/
theorem c7_manual_match (direction : SwapDirection) (fieldsToSwap : List String)
    (user timestamp : String) (records : List InvoiceItemReconciliationRec)
    (r : InvoiceItemReconciliationRec) :
    (records.any (fun x => x.matchStatus == "perfect_match") = true →
      ∃ msg, manualMatchPost direction fieldsToSwap user timestamp records =
        Except.error msg) ∧
    ((manualMatchRecord direction fieldsToSwap user timestamp r).matchStatus =
        "perfect_match" ∧
      (manualMatchRecord direction fieldsToSwap user timestamp r).manualMatch = true ∧
      (manualMatchRecord direction fieldsToSwap user timestamp r).isAutoMatched = false ∧
      (manualMatchRecord direction fieldsToSwap user timestamp r).overallMatchStatus =
        r.overallMatchStatus ∧
      (manualMatchRecord direction fieldsToSwap user timestamp r).reconciliationNotes =
        some (manualMatchNote r.reconciliationNotes user timestamp
          (swapDirectionString direction) r.matchStatus fieldsToSwap)) ∧
    (fieldsToSwap.contains "all" = true →
      ((pyTruthyQ (manualMatchRecord direction fieldsToSwap user timestamp
          r).invoiceItemQuantity = true →
        (manualMatchRecord direction fieldsToSwap user timestamp r).quantityVariance =
          some 0) ∧
      (pyTruthyQ (manualMatchRecord direction fieldsToSwap user timestamp
          r).invoiceItemSubtotal = true →
        (manualMatchRecord direction fieldsToSwap user timestamp r).subtotalVariance =
          some 0) ∧
      (pyTruthyQ (manualMatchRecord direction fieldsToSwap user timestamp
          r).invoiceItemTotalAmount = true →
        (manualMatchRecord direction fieldsToSwap user timestamp r).totalAmountVariance =
          some 0) ∧
      (pyTruthyQ (manualMatchRecord direction fieldsToSwap user timestamp
          r).invoiceItemUnitPrice = true →
        (manualMatchRecord direction fieldsToSwap user timestamp r).unitRateVariance =
          some 0) ∧
      (pyTruthyQ (manualMatchRecord direction fieldsToSwap user timestamp
          r).invoiceItemCgstAmount = true →
        (manualMatchRecord direction fieldsToSwap user timestamp r).cgstVariance = some 0) ∧
      (pyTruthyQ (manualMatchRecord direction fieldsToSwap user timestamp
          r).invoiceItemSgstAmount = true →
        (manualMatchRecord direction fieldsToSwap user timestamp r).sgstVariance = some 0) ∧
      (pyTruthyQ (manualMatchRecord direction fieldsToSwap user timestamp
          r).invoiceItemIgstAmount = true →
        (manualMatchRecord direction fieldsToSwap user timestamp r).igstVariance = some 0) ∧
      (pyTruthyQ (manualMatchRecord direction fieldsToSwap user timestamp
          r).invoiceItemTotalTax = true →
        (manualMatchRecord direction fieldsToSwap user timestamp r).totalTaxVariance =
          some 0))) := by
  refine ⟨?_, ⟨?_, ?_, ?_, ?_, ?_⟩, ?_⟩
  · intro hperf
    rcases records with _ | ⟨a, rest⟩
    · simp at hperf
    · refine ⟨"records already have perfect_match status", ?_⟩
      simp [manualMatchPost, hperf]
  · simp only [manualMatchRecord]
    rw [show ∀ x : InvoiceItemReconciliationRec,
        (invoiceItemReconSave x).matchStatus = x.matchStatus from fun _ => rfl,
      (recalculateVariances_preserves _).1]
  · simp only [manualMatchRecord]
    rw [show ∀ x : InvoiceItemReconciliationRec,
        (invoiceItemReconSave x).manualMatch = x.manualMatch from fun _ => rfl,
      (recalculateVariances_preserves _).2.1]
  · simp only [manualMatchRecord]
    rw [show ∀ x : InvoiceItemReconciliationRec,
        (invoiceItemReconSave x).isAutoMatched = x.isAutoMatched from fun _ => rfl,
      (recalculateVariances_preserves _).2.2.1]
  · simp only [manualMatchRecord]
    rw [show ∀ x : InvoiceItemReconciliationRec,
        (invoiceItemReconSave x).overallMatchStatus = x.overallMatchStatus from fun _ => rfl,
      (recalculateVariances_preserves _).2.2.2.1]
    exact (applyFieldCopies_preserves direction _ _).2.2.2.1
  · simp only [manualMatchRecord]
    rw [show ∀ x : InvoiceItemReconciliationRec,
        (invoiceItemReconSave x).reconciliationNotes = x.reconciliationNotes from fun _ => rfl,
      (recalculateVariances_preserves _).2.2.2.2]
    rw [show ({ applyFieldCopies direction (getFieldMappings fieldsToSwap) r with
        matchStatus := "perfect_match", manualMatch := true, isAutoMatched := false,
        reconciliationNotes := some (manualMatchNote
          (applyFieldCopies direction (getFieldMappings fieldsToSwap) r).reconciliationNotes
          user timestamp (swapDirectionString direction)
          (applyFieldCopies direction (getFieldMappings fieldsToSwap) r).matchStatus
          fieldsToSwap) } : InvoiceItemReconciliationRec).reconciliationNotes =
        some (manualMatchNote
          (applyFieldCopies direction (getFieldMappings fieldsToSwap) r).reconciliationNotes
          user timestamp (swapDirectionString direction)
          (applyFieldCopies direction (getFieldMappings fieldsToSwap) r).matchStatus
          fieldsToSwap) from rfl]
    rw [(applyFieldCopies_preserves direction (getFieldMappings fieldsToSwap) r).1,
      (applyFieldCopies_preserves direction (getFieldMappings fieldsToSwap) r).2.2.2.2]
  · intro hAll
    have hm := getFieldMappings_all fieldsToSwap hAll
    have hsides := applyAllCopies_sides direction r
    refine ⟨?_, ?_, ?_, ?_, ?_, ?_, ?_, ?_⟩ <;> intro ht <;>
      simp only [manualMatchRecord, hm] at ht ⊢
    · rw [show ∀ x : InvoiceItemReconciliationRec,
          (invoiceItemReconSave x).invoiceItemQuantity = x.invoiceItemQuantity from
          fun _ => rfl, (recalculateVariances_snapshots _).1] at ht
      rw [show ∀ x : InvoiceItemReconciliationRec,
          (invoiceItemReconSave x).quantityVariance = x.quantityVariance from fun _ => rfl]
      refine (recalculateVariances_zero _ ?_ ?_ ?_ ?_ ?_ ?_ ?_ ?_).1 ht
      · exact hsides.1
      · exact hsides.2.1
      · exact hsides.2.2.1
      · exact hsides.2.2.2.1
      · exact hsides.2.2.2.2.1
      · exact hsides.2.2.2.2.2.1
      · exact hsides.2.2.2.2.2.2.1
      · exact hsides.2.2.2.2.2.2.2
    · rw [show ∀ x : InvoiceItemReconciliationRec,
          (invoiceItemReconSave x).invoiceItemSubtotal = x.invoiceItemSubtotal from
          fun _ => rfl, (recalculateVariances_snapshots _).2.1] at ht
      rw [show ∀ x : InvoiceItemReconciliationRec,
          (invoiceItemReconSave x).subtotalVariance = x.subtotalVariance from fun _ => rfl]
      refine (recalculateVariances_zero _ ?_ ?_ ?_ ?_ ?_ ?_ ?_ ?_).2.1 ht
      · exact hsides.1
      · exact hsides.2.1
      · exact hsides.2.2.1
      · exact hsides.2.2.2.1
      · exact hsides.2.2.2.2.1
      · exact hsides.2.2.2.2.2.1
      · exact hsides.2.2.2.2.2.2.1
      · exact hsides.2.2.2.2.2.2.2
    · rw [show ∀ x : InvoiceItemReconciliationRec,
          (invoiceItemReconSave x).invoiceItemTotalAmount = x.invoiceItemTotalAmount from
          fun _ => rfl, (recalculateVariances_snapshots _).2.2.1] at ht
      rw [show ∀ x : InvoiceItemReconciliationRec,
          (invoiceItemReconSave x).totalAmountVariance = x.totalAmountVariance from fun _ => rfl]
      refine (recalculateVariances_zero _ ?_ ?_ ?_ ?_ ?_ ?_ ?_ ?_).2.2.1 ht
      · exact hsides.1
      · exact hsides.2.1
      · exact hsides.2.2.1
      · exact hsides.2.2.2.1
      · exact hsides.2.2.2.2.1
      · exact hsides.2.2.2.2.2.1
      · exact hsides.2.2.2.2.2.2.1
      · exact hsides.2.2.2.2.2.2.2
    · rw [show ∀ x : InvoiceItemReconciliationRec,
          (invoiceItemReconSave x).invoiceItemUnitPrice = x.invoiceItemUnitPrice from
          fun _ => rfl, (recalculateVariances_snapshots _).2.2.2.1] at ht
      rw [show ∀ x : InvoiceItemReconciliationRec,
          (invoiceItemReconSave x).unitRateVariance = x.unitRateVariance from fun _ => rfl]
      refine (recalculateVariances_zero _ ?_ ?_ ?_ ?_ ?_ ?_ ?_ ?_).2.2.2.1 ht
      · exact hsides.1
      · exact hsides.2.1
      · exact hsides.2.2.1
      · exact hsides.2.2.2.1
      · exact hsides.2.2.2.2.1
      · exact hsides.2.2.2.2.2.1
      · exact hsides.2.2.2.2.2.2.1
      · exact hsides.2.2.2.2.2.2.2
    · rw [show ∀ x : InvoiceItemReconciliationRec,
          (invoiceItemReconSave x).invoiceItemCgstAmount = x.invoiceItemCgstAmount from
          fun _ => rfl, (recalculateVariances_snapshots _).2.2.2.2.1] at ht
      rw [show ∀ x : InvoiceItemReconciliationRec,
          (invoiceItemReconSave x).cgstVariance = x.cgstVariance from fun _ => rfl]
      refine (recalculateVariances_zero _ ?_ ?_ ?_ ?_ ?_ ?_ ?_ ?_).2.2.2.2.1 ht
      · exact hsides.1
      · exact hsides.2.1
      · exact hsides.2.2.1
      · exact hsides.2.2.2.1
      · exact hsides.2.2.2.2.1
      · exact hsides.2.2.2.2.2.1
      · exact hsides.2.2.2.2.2.2.1
      · exact hsides.2.2.2.2.2.2.2
    · rw [show ∀ x : InvoiceItemReconciliationRec,
          (invoiceItemReconSave x).invoiceItemSgstAmount = x.invoiceItemSgstAmount from
          fun _ => rfl, (recalculateVariances_snapshots _).2.2.2.2.2.1] at ht
      rw [show ∀ x : InvoiceItemReconciliationRec,
          (invoiceItemReconSave x).sgstVariance = x.sgstVariance from fun _ => rfl]
      refine (recalculateVariances_zero _ ?_ ?_ ?_ ?_ ?_ ?_ ?_ ?_).2.2.2.2.2.1 ht
      · exact hsides.1
      · exact hsides.2.1
      · exact hsides.2.2.1
      · exact hsides.2.2.2.1
      · exact hsides.2.2.2.2.1
      · exact hsides.2.2.2.2.2.1
      · exact hsides.2.2.2.2.2.2.1
      · exact hsides.2.2.2.2.2.2.2
    · rw [show ∀ x : InvoiceItemReconciliationRec,
          (invoiceItemReconSave x).invoiceItemIgstAmount = x.invoiceItemIgstAmount from
          fun _ => rfl, (recalculateVariances_snapshots _).2.2.2.2.2.2.1] at ht
      rw [show ∀ x : InvoiceItemReconciliationRec,
          (invoiceItemReconSave x).igstVariance = x.igstVariance from fun _ => rfl]
      refine (recalculateVariances_zero _ ?_ ?_ ?_ ?_ ?_ ?_ ?_ ?_).2.2.2.2.2.2.1 ht
      · exact hsides.1
      · exact hsides.2.1
      · exact hsides.2.2.1
      · exact hsides.2.2.2.1
      · exact hsides.2.2.2.2.1
      · exact hsides.2.2.2.2.2.1
      · exact hsides.2.2.2.2.2.2.1
      · exact hsides.2.2.2.2.2.2.2
    · rw [show ∀ x : InvoiceItemReconciliationRec,
          (invoiceItemReconSave x).invoiceItemTotalTax = x.invoiceItemTotalTax from
          fun _ => rfl, (recalculateVariances_snapshots _).2.2.2.2.2.2.2] at ht
      rw [show ∀ x : InvoiceItemReconciliationRec,
          (invoiceItemReconSave x).totalTaxVariance = x.totalTaxVariance from fun _ => rfl]
      refine (recalculateVariances_zero _ ?_ ?_ ?_ ?_ ?_ ?_ ?_ ?_).2.2.2.2.2.2.2 ht
      · exact hsides.1
      · exact hsides.2.1
      · exact hsides.2.2.1
      · exact hsides.2.2.2.1
      · exact hsides.2.2.2.2.1
      · exact hsides.2.2.2.2.2.1
      · exact hsides.2.2.2.2.2.2.1
      · exact hsides.2.2.2.2.2.2.2


/-- C7 witness: a copy-all manual match (GRN to invoice) on the concrete
quantity-mismatch record yields `perfect_match` and a recalculated quantity
variance of zero. -/
theorem c7_manual_match_witness :
    (manualMatchRecord SwapDirection.grnToInvoice ["all"] "bob" "2026-02-02 00:00:00"
      exItemRecQtyMismatch).matchStatus = "perfect_match" ∧
    (manualMatchRecord SwapDirection.grnToInvoice ["all"] "bob" "2026-02-02 00:00:00"
      exItemRecQtyMismatch).quantityVariance = some 0 := by
  have h := c7_manual_match SwapDirection.grnToInvoice ["all"] "bob" "2026-02-02 00:00:00"
    [exItemRecQtyMismatch] exItemRecQtyMismatch
  have e1 : (manualMatchRecord SwapDirection.grnToInvoice ["all"] "bob" "2026-02-02 00:00:00"
      exItemRecQtyMismatch).invoiceItemQuantity = some 5 := by
    simp only [manualMatchRecord, getFieldMappings_all ["all"] (by decide)]
    rw [show ∀ x : InvoiceItemReconciliationRec,
        (invoiceItemReconSave x).invoiceItemQuantity = x.invoiceItemQuantity from fun _ => rfl,
      (recalculateVariances_snapshots _).1]
    rfl
  refine ⟨h.2.1.1, (h.2.2 (by decide)).1 ?_⟩
  rw [e1]
  decide

/-! Claim C8 — persistence is create-with-unique-constraint, not upsert. -/

/-- A GRN summary carrying only a PO number and a total. -/
def exGrnForC8 : GrnSummary :=
  { exGrnSummary0 with poNumber := some "PO1", totalAmount := some 100 }

/-- An invoice referencing the same PO. -/
def exInvoiceForC8 : InvoiceData :=
  { exInvoice0 with id := 1, poNumber := some "PO1", invoiceTotalPostGst := some 100 }

/-- The header record persisted by an earlier run for the same
`(invoice_data_id, po_number)` key. -/
def exExistingHeaderRec : InvoiceGrnReconciliationRec :=
  { defaultHeaderRec with invoiceDataId := 1, poNumber := "PO1", matchStatus := "partial_match" }

/-- C8 (corrected, counterexample): re-processing an invoice whose
`(invoice_data_id, po_number)` header record already exists does NOT update
the existing record — `objects.create` raises IntegrityError under the
unique constraint, the per-record handler counts an error, and the store is
unchanged (the old `partial_match` row survives). -/
theorem c8_counterexample :
    processSingleInvoiceStep 2 30 [exGrnForC8] [exExistingHeaderRec] 0 exInvoiceForC8 =
      ([exExistingHeaderRec], 1) := by
  have hfind : findGrnMatchesHierarchical [exGrnForC8] exInvoiceForC8 = [exGrnForC8] := by
    simp [findGrnMatchesHierarchical, headerStrategy1, headerStrategy2, headerStrategy3,
      headerStrategy4, headerStrategy5, headerStrategy6, pyTruthyStr, exInvoiceForC8,
      exGrnForC8, exInvoice0, exGrnSummary0, (by decide : ("PO1" : String).isEmpty = false)]
  have heval : evaluateGrnMatches 2 30 exInvoiceForC8 [exGrnForC8] =
      some (evaluateSingleMatch 2 30 exInvoiceForC8 exGrnForC8) := by
    rw [evaluateGrnMatches_cons]
    rfl
  have hcreate : headerObjectsCreate [exExistingHeaderRec]
      (createReconciliationRecord 2 exInvoiceForC8
        (evaluateSingleMatch 2 30 exInvoiceForC8 exGrnForC8)) = none := by
    have h1 : (createReconciliationRecord 2 exInvoiceForC8
        (evaluateSingleMatch 2 30 exInvoiceForC8 exGrnForC8)).invoiceDataId = 1 := rfl
    have h2 : (createReconciliationRecord 2 exInvoiceForC8
        (evaluateSingleMatch 2 30 exInvoiceForC8 exGrnForC8)).poNumber = "PO1" := rfl
    simp [headerObjectsCreate, h1, h2, exExistingHeaderRec, defaultHeaderRec]
  simp only [processSingleInvoiceStep, hfind, heval, hcreate]

/-- C8 (amended): when the `(invoice_data_id, po_number)` key of the record
about to be written already exists in the store, processing the invoice
leaves the store unchanged and increments the error tally (the
IntegrityError path), instead of updating the existing record; line records
never hit their `(invoice_item_data_id, reconciliation_batch_id)` constraint
within a run because each record write generates a fresh batch id, so an
absent key simply appends a new record. -/
theorem c8_create_not_upsert (tol : ℚ) (dt : ℤ) (grnTable : List GrnSummary)
    (store : List InvoiceGrnReconciliationRec) (errors : ℕ) (invoice : InvoiceData)
    (itemStore : List InvoiceItemReconciliationRec) (s : InvoiceItemReconciliationRec) :
    (store.any (fun x => x.invoiceDataId == invoice.id &&
        x.poNumber == pyStrOrEmpty invoice.poNumber) = true →
      processSingleInvoiceStep tol dt grnTable store errors invoice = (store, errors + 1)) ∧
    (itemStore.any (fun x => x.invoiceItemDataId == s.invoiceItemDataId &&
        x.reconciliationBatchId == s.reconciliationBatchId) = false →
      itemObjectsCreate itemStore s = some (itemStore ++ [s])) := by
  constructor
  · intro hdup
    unfold processSingleInvoiceStep
    cases hm : evaluateGrnMatches tol dt invoice (findGrnMatchesHierarchical grnTable invoice) with
    | none =>
      have hnone : headerObjectsCreate store (createNoMatchRecord tol invoice) = none := by
        have hkey1 : (createNoMatchRecord tol invoice).invoiceDataId = invoice.id := rfl
        have hkey2 : (createNoMatchRecord tol invoice).poNumber =
          pyStrOrEmpty invoice.poNumber := rfl
        unfold headerObjectsCreate
        simp only [hkey1, hkey2]
        rw [if_pos hdup]
      simp only [hm, hnone]
    | some e =>
      have hnone : headerObjectsCreate store (createReconciliationRecord tol invoice e) =
          none := by
        have hkey1 : (createReconciliationRecord tol invoice e).invoiceDataId =
          invoice.id := rfl
        have hkey2 : (createReconciliationRecord tol invoice e).poNumber =
          pyStrOrEmpty invoice.poNumber := rfl
        unfold headerObjectsCreate
        simp only [hkey1, hkey2]
        rw [if_pos hdup]
      simp only [hm, hnone]
  · intro hfresh
    unfold itemObjectsCreate
    rw [if_neg (by rw [hfresh]; exact Bool.false_ne_true)]

/-- C8 witness: the duplicate-key path applied at a concrete store with
three previous errors, and a fresh-key line create that appends. -/
theorem c8_create_not_upsert_witness :
    processSingleInvoiceStep 2 30 [exGrnForC8] [exExistingHeaderRec] 3 exInvoiceForC8 =
      ([exExistingHeaderRec], 4) ∧
    itemObjectsCreate [] defaultItemRec = some [defaultItemRec] := by
  have h := c8_create_not_upsert 2 30 [exGrnForC8] [exExistingHeaderRec] 3 exInvoiceForC8
    [] defaultItemRec
  exact ⟨h.1 (by decide), h.2 rfl⟩

/-! Claim C9 — GRN-summary rollup status. -/

/-- The GRN summary linked to the reconciled invoice below. -/
def exGrnSummaryC9 : GrnSummary :=
  { exGrnSummary0 with grnNumber := some "GRN1", poNumber := some "PO1" }

/-- A perfectly matched header reconciliation of the linked invoice. -/
def exHeaderRecC9 : InvoiceGrnReconciliationRec :=
  { defaultHeaderRec with
    invoiceDataId := 1
    poNumber := "PO1"
    grnNumber := "GRN1"
    matchStatus := "perfect_match" }

/-- C9 (code bug): the rollup groups reconciled invoices under the key
`f"{grn_number}_{po_number}"` but parses it back with `rsplit('/', 1)`; with
no `/` in the key the unpacking raises ValueError, the function-level
handler reports failure, and the linked GRN summary — which per the claim
should become `matched` and reconciled — is left untouched. -/
theorem c9_grn_summary_rollup_bug :
    rsplitOncePair '/' (grnStatusKey "GRN1" "PO1") = none ∧
    updateGrnSummaryStatus [exGrnSummaryC9] [exHeaderRecC9] =
      { success := false, totalUpdated := 0, summaries := [exGrnSummaryC9] } ∧
    exGrnSummaryC9.isReconciled = false ∧
    exGrnSummaryC9.reconciliationStatus = none := by
  refine ⟨by decide, ?_, rfl, rfl⟩
  decide

end Recon
